import Mathlib

/-!
# bst_web: the request-authorization-and-proxy pipeline

A shallow embedding of `router_bst_api.go`: the handlers of the `/bst_api` router and the
`*Impl` functions that call the upstream BST API; and of the handler `WhoAmI` of `server.go`.

Stateful Go values are passed explicitly:

* the package variable `bstApiClient` is a `Client` value, whose `sent` field records every
  request handed to `Do`;
* an `http.ResponseWriter` is a `ResponseWriter` value.

Go library code is modelled by its documented behaviour (`encoding/json`, `net/http`, `fmt`);
declarations of the external package `bst_models` and of this package that live outside
`router_bst_api.go` are taken as parameters (`BstModels`, `Package`).
-/

set_option linter.dupNamespace false

namespace BstWeb

/-! ## JSON, as package encoding/json sees it -/

/-- A JSON value. Object members keep their order and their duplicates, as the decoder
walks them one after the other. -/
inductive JValue where
  | null
  | bool (b : Bool)
  | number (literal : String)
  | str (s : String)
  | array (elems : List JValue)
  | object (members : List (String × JValue))

/-- A byte string handed to `json.Unmarshal`: `none` when it is not a well-formed JSON text
(the decoder then returns a syntax error before touching its target), `some v` when it is a
well-formed text denoting `v`. -/
abbrev JSONInput := Option JValue

/-- A byte string produced by the gateway: either the encoding `json.Marshal` gave for a
value, or the bytes of a Go string. -/
inductive Bytes where
  | json (v : JValue)
  | text (s : String)

/-- A Go slice: `none` is the nil slice. -/
abbrev Slice (α : Type) := Option (List α)

/-- The elements of a slice, what `range` iterates over. -/
def Slice.elems {α : Type} : Slice α → List α
  | none => []
  | some xs => xs

/-- The builtin `len` on a slice. -/
def Slice.len {α : Type} (s : Slice α) : Nat := (Slice.elems s).length

/-- Case folding of one character of an object key: ASCII letters fold to lower case, and the
two non-ASCII characters whose simple fold is an ASCII letter (KELVIN SIGN, LATIN SMALL LETTER
LONG S) fold to that letter. -/
def foldRune (c : Char) : Char :=
  if c = Char.ofNat 0x212A then 'k'
  else if c = Char.ofNat 0x017F then 's'
  else c.toLower

/-- Case folding of an object key. -/
def foldName (s : String) : String := String.mk (s.data.map foldRune)

/-- Whether an object key selects the struct field with JSON name `field`: an exact match,
or else a case-insensitive one. -/
def keyMatches (field key : String) : Bool :=
  key == field || foldName key == foldName field

/-- Store a JSON value into a struct field of Go type `string`. A JSON string is stored, a
JSON null leaves the field alone, any other value leaves the field alone and records an
`UnmarshalTypeError` (the `Bool`), after which decoding goes on with the next member: in the
words of the package documentation, when a JSON value is not appropriate for a given target
type, Unmarshal skips that field and completes the unmarshaling as best it can, and then
returns an UnmarshalTypeError describing the earliest such error. -/
def storeString (v : JValue) (cur : String) : String × Bool :=
  match v with
  | .str s => (s, false)
  | .null => (cur, false)
  | _ => (cur, true)

/-- Decode a JSON array into a slice whose elements are decoded from their zero value by
`decodeElem` (the `Bool` tells whether the element recorded a type error). JSON null sets the
slice to nil; an array replaces the slice, one element per array element; anything else is an
error and leaves the slice as it was. The `Bool` of the result is `err != nil`. -/
def unmarshalSlice {α : Type} (decodeElem : JValue → α × Bool) (body : JSONInput)
    (cur : Slice α) : Slice α × Bool :=
  match body with
  | none => (cur, true)
  | some .null => (none, false)
  | some (.array xs) =>
      (some (xs.map fun x => (decodeElem x).1), xs.any fun x => (decodeElem x).2)
  | some _ => (cur, true)

/-! ## The models of package bst_models -/

/-- The outcome envelope `bst_models.Status`. -/
structure Status where
  Status : String
  Message : String
  deriving DecidableEq, Repr

/-- The health descriptor `bst_models.ApiStatus`. -/
structure ApiStatus where
  Api : String
  EaGate : String
  Db : String
  deriving DecidableEq, Repr

/-- Modelled from the spec: the field types of one play record,
`bst_models.DdrStatisticsTable`, a struct declared in the external package bst_models
(`level`, `score`, `playCount`, `clearCount`, `maxCombo` are ints, the others strings). The
field names are those the source reads. -/
structure DdrStatisticsTable where
  Level : Int
  Title : String
  Artist : String
  Mode : String
  Difficulty : String
  Lamp : String
  Rank : String
  Score : Int
  PlayCount : Int
  ClearCount : Int
  MaxCombo : Int
  deriving DecidableEq, Repr

/-- The zero value of `bst_models.Status`. -/
def zeroStatus : Status := { Status := "", Message := "" }

/-- Modelled from the spec: the JSON names `status` and `message` of the two fields of
`bst_models.Status` (the struct tags are declared in the external package bst_models).
Decode one object member into a `Status`. -/
def storeStatusMember (acc : Status × Bool) (m : String × JValue) : Status × Bool :=
  if keyMatches "status" m.1 then
    let r := storeString m.2 acc.1.Status
    ({ acc.1 with Status := r.1 }, acc.2 || r.2)
  else if keyMatches "message" m.1 then
    let r := storeString m.2 acc.1.Message
    ({ acc.1 with Message := r.1 }, acc.2 || r.2)
  else acc

/-- The call `json.Unmarshal(body, &status)` on a `bst_models.Status`: the updated struct and
whether the returned error is non-nil. A text that is not JSON, or a JSON value that is
neither null nor an object, is an error that leaves the struct alone; the members of an
object are stored one by one, and a member of the wrong type is skipped and remembered as
the error while the remaining members are still stored. -/
def unmarshalStatus (body : JSONInput) (status : Status) : Status × Bool :=
  match body with
  | none => (status, true)
  | some .null => (status, false)
  | some (.object ms) => ms.foldl storeStatusMember (status, false)
  | some _ => (status, true)

/-- Modelled from the spec: the JSON names `api`, `eagate` and `db` of the three fields of
`bst_models.ApiStatus` (the struct tags are declared in the external package bst_models).
Decode one object member into an `ApiStatus`. -/
def storeApiStatusMember (acc : ApiStatus × Bool) (m : String × JValue) : ApiStatus × Bool :=
  if keyMatches "api" m.1 then
    let r := storeString m.2 acc.1.Api
    ({ acc.1 with Api := r.1 }, acc.2 || r.2)
  else if keyMatches "eagate" m.1 then
    let r := storeString m.2 acc.1.EaGate
    ({ acc.1 with EaGate := r.1 }, acc.2 || r.2)
  else if keyMatches "db" m.1 then
    let r := storeString m.2 acc.1.Db
    ({ acc.1 with Db := r.1 }, acc.2 || r.2)
  else acc

/-- The call `json.Unmarshal(body, &status)` on a `bst_models.ApiStatus`. -/
def unmarshalApiStatus (body : JSONInput) (status : ApiStatus) : ApiStatus × Bool :=
  match body with
  | none => (status, true)
  | some .null => (status, false)
  | some (.object ms) => ms.foldl storeApiStatusMember (status, false)
  | some _ => (status, true)

/-- Modelled from the spec: the JSON names of the fields of `bst_models.Status`, as in
`storeStatusMember`. The call `json.Marshal(status)` on a `bst_models.Status`. -/
def marshalStatus (status : Status) : Bytes :=
  .json (.object [("status", .str status.Status), ("message", .str status.Message)])

/-- Modelled from the spec: the JSON names of the fields of `bst_models.ApiStatus`, as in
`storeApiStatusMember`. The call `json.Marshal(status)` on a `bst_models.ApiStatus`. -/
def marshalApiStatus (status : ApiStatus) : Bytes :=
  .json (.object [("api", .str status.Api), ("eagate", .str status.EaGate),
    ("db", .str status.Db)])

/-- What the handlers use of package bst_models beyond `Status`, `ApiStatus` and the fields of
`DdrStatisticsTable`: the request and user types, and how encoding/json decodes and encodes
them (which depends on struct tags declared in that package). -/
structure BstModels where
  EagateUser : Type
  LoginRequest : Type
  LogoutRequest : Type
  /-- Decoding of one array element into a zero `EagateUser`, and whether it recorded a type
  error. -/
  decodeEagateUser : JValue → EagateUser × Bool
  /-- The call `json.Marshal(users)`. -/
  marshalEagateUsers : Slice EagateUser → Bytes
  /-- The value of `loginRequest` after `json.Unmarshal(body, &loginRequest)` on the zero
  value. -/
  decodeLoginRequest : JSONInput → LoginRequest
  /-- The call `json.Marshal(loginRequest)`. -/
  marshalLoginRequest : LoginRequest → Bytes
  /-- The value of `logoutRequest` after `json.Unmarshal(body, &logoutRequest)` on the zero
  value. -/
  decodeLogoutRequest : JSONInput → LogoutRequest
  /-- The call `json.Marshal(logoutRequest)`. -/
  marshalLogoutRequest : LogoutRequest → Bytes
  /-- Decoding of one array element into a zero `DdrStatisticsTable`, and whether it recorded
  a type error. -/
  decodeDdrStatisticsTable : JValue → DdrStatisticsTable × Bool

/-! ## Package fmt -/

/-- An operand of `fmt.Sprintf`. -/
inductive FmtArg where
  | s (v : String)
  | d (v : Int)

/-- The expansion of a format over its operands, for the two verbs the source uses, each
applied to an operand of its own type: `%s` writes a string as it is and `%d` an integer in
decimal. -/
def sprintfChars : List Char → List FmtArg → List Char
  | [], _ => []
  | '%' :: 's' :: rest, .s v :: args => v.data ++ sprintfChars rest args
  | '%' :: 'd' :: rest, .d v :: args => (toString v).data ++ sprintfChars rest args
  | c :: rest, args => c :: sprintfChars rest args

/-- The call `fmt.Sprintf(format, args...)`. -/
def Sprintf (format : String) (args : List FmtArg) : String :=
  String.mk (sprintfChars format.data args)

/-! ## Package net/http -/

/-- An `http.Header`: the keys in the order they were first added, each with its values. -/
abbrev Header := List (String × List String)

/-- The method `Header.Add`: append a value to those of the key (the keys the source adds are
already in canonical form). -/
def Header.Add : Header → String → String → Header
  | [], key, value => [(key, [value])]
  | (k, vs) :: rest, key, value =>
      if k = key then (k, vs ++ [value]) :: rest
      else (k, vs) :: Header.Add rest key value

/-- The method `Header.Values`: all values of a key. -/
def Header.Values : Header → String → List String
  | [], _ => []
  | (k, vs) :: rest, key => if k = key then vs else Header.Values rest key

/-- The query of the URL that `url.Parse` makes of a string: the fragment (from the first
number sign on) is cut off first, and the query is what follows the first question mark of
the remainder. -/
def rawQuery (rawURL : String) : String :=
  String.mk (((rawURL.data.takeWhile (· ≠ '#')).dropWhile (· ≠ '?')).drop 1)

def MethodGet : String := "GET"
def MethodPost : String := "POST"
def MethodPatch : String := "PATCH"
def StatusOK : Nat := 200
def StatusUnauthorized : Nat := 401
def StatusInternalServerError : Nat := 500

/-- An outbound `http.Request`, as the `*Impl` functions build it. `URL` is the string given
to `url.Parse`; a nil `Header` map is the empty header. -/
structure Request where
  Method : String
  URL : String
  Header : Header
  Body : Option Bytes

/-- An `http.Response` of the upstream API. -/
structure Response where
  StatusCode : Nat
  Header : Header
  Body : JSONInput

/-- The `http.Client` held in the package variable `bstApiClient`, together with the requests
it has sent so far. `Jar` is the cookie jar (the cookies it holds for a URL), `Timeout` is
in seconds, `followRedirects` is false when `CheckRedirect` answers
`http.ErrUseLastResponse`. `transport` is the upstream side: the response to a request, or
the text of a transport error (among them a timeout). -/
structure Client where
  Jar : Option (String → List String)
  Timeout : Nat
  followRedirects : Bool
  transport : Request → Except String Response
  sent : List Request

/-- The function `InitClient`, for a given upstream. -/
def InitClient (transport : Request → Except String Response) : Client :=
  { Jar := none, Timeout := 45, followRedirects := false, transport := transport, sent := [] }

/-- The method `Header.Set`: replace the values of a key by one value. -/
def Header.Set : Header → String → String → Header
  | [], key, value => [(key, [value])]
  | (k, vs) :: rest, key, value =>
      if k = key then (k, [value]) :: rest
      else (k, vs) :: Header.Set rest key value

/-- The method `Request.AddCookie`: the cookie is written into the one Cookie header of the
request, after a semicolon when that header is there already. -/
def Request.AddCookie (req : Request) (cookie : String) : Request :=
  match Header.Values req.Header "Cookie" with
  | [] => { req with Header := Header.Add req.Header "Cookie" cookie }
  | c :: _ => { req with Header := Header.Set req.Header "Cookie" (c ++ "; " ++ cookie) }

/-- The request that goes on the wire: when the client has a jar, the cookies the jar holds
for the URL of the request are added to it; without a jar the request goes out as it is. -/
def Client.outgoing (c : Client) (req : Request) : Request :=
  match c.Jar with
  | none => req
  | some jar => (jar req.URL).foldl Request.AddCookie req

/-- The method `Client.Do`: the request is sent once, not retried, and the response or the
transport error is returned; the new client state records the request. -/
def Client.Do (c : Client) (req : Request) : Except String Response × Client :=
  (c.transport (c.outgoing req), { c with sent := c.sent ++ [c.outgoing req] })

/-- An inbound `http.Request`. `Body` is the outcome of `ioutil.ReadAll(r.Body)`: the text of
the read error, or the bytes read. -/
structure HttpRequest where
  Method : String
  Path : String
  Header : Header
  Body : Except String JSONInput

/-- An `http.ResponseWriter`: whether the status line has been written, the status code, and
the chunks written to the body. -/
structure ResponseWriter where
  wroteHeader : Bool
  Code : Nat
  Body : List Bytes

/-- The response writer a handler is given. -/
def ResponseWriter.fresh : ResponseWriter := { wroteHeader := false, Code := 0, Body := [] }

/-- The method `WriteHeader`: the first call fixes the status code, a later call is
ignored. -/
def ResponseWriter.WriteHeader (rw : ResponseWriter) (statusCode : Nat) : ResponseWriter :=
  if rw.wroteHeader then rw else { rw with wroteHeader := true, Code := statusCode }

/-- The method `Write`: when `WriteHeader` has not been called yet, `Write` calls
`WriteHeader(http.StatusOK)` before writing the data. -/
def ResponseWriter.Write (rw : ResponseWriter) (b : Bytes) : ResponseWriter :=
  let rw := rw.WriteHeader StatusOK
  { rw with Body := rw.Body ++ [b] }

/-! ## Declarations of the package outside router_bst_api.go -/

/-- What router_bst_api.go uses of its own package and is declared in other files: the host
and base path of the upstream API, and `TokenForRequest`, which gives the access token of the
session of a request, or an error (here its text). -/
structure Package where
  bstApi : String
  bstApiBase : String
  TokenForRequest : HttpRequest → Except String String

/-! ## The markup of the statistics table -/

/-- The markup `DdrStatsGetImpl` starts from: the filter panel and the opening of the stats
table, up to and including the opening tag of its body. -/
def statsTableOpening : String :=
  "<button class=\"btn btn-primary\" type=\"button\" data-toggle=\"collapse\" data-target=\"#collapseFilter\" aria-expanded=\"false\" aria-controls=\"collapseFilter\">\n"
    ++ "    Filtering\n"
    ++ "  </button>\n"
    ++ "</p>\n"
    ++ "<div class=\"collapse\" id=\"collapseFilter\">\n"
    ++ "  <div class=\"card card-body\">\n"
    ++ "\t<div class=\"container\">\n"
    ++ "\t\t<div class=\"row\">\n"
    ++ "\t\t\t<div class=\"container\">\n"
    ++ "\t\t\t\t<div class=\"row\">Levels</div>\n"
    ++ "\t\t\t\t<div class=\"row\">\n"
    ++ "\t\t\t\t\t<div class=\"col enabled level-filter\" id=\"level-filter-1\">1</div>\n"
    ++ "\t\t\t\t\t<div class=\"col enabled level-filter\" id=\"level-filter-2\">2</div>\n"
    ++ "\t\t\t\t\t<div class=\"col enabled level-filter\" id=\"level-filter-3\">3</div>\n"
    ++ "\t\t\t\t\t<div class=\"col enabled level-filter\" id=\"level-filter-4\">4</div>\n"
    ++ "\t\t\t\t\t<div class=\"col enabled level-filter\" id=\"level-filter-5\">5</div>\n"
    ++ "\t\t\t\t</div>\n"
    ++ "\t\t\t\t<div class=\"row\">\n"
    ++ "\t\t\t\t\t<div class=\"col enabled level-filter\" id=\"level-filter-6\">6</div>\n"
    ++ "\t\t\t\t\t<div class=\"col enabled level-filter\" id=\"level-filter-7\">7</div>\n"
    ++ "\t\t\t\t\t<div class=\"col enabled level-filter\" id=\"level-filter-8\">8</div>\n"
    ++ "\t\t\t\t\t<div class=\"col enabled level-filter\" id=\"level-filter-9\">9</div>\n"
    ++ "\t\t\t\t\t<div class=\"col enabled level-filter\" id=\"level-filter-10\">10</div>\n"
    ++ "\t\t\t\t</div>\n"
    ++ "\t\t\t\t<div class=\"row\">\n"
    ++ "\t\t\t\t\t<div class=\"col enabled level-filter\" id=\"level-filter-11\">11</div>\n"
    ++ "\t\t\t\t\t<div class=\"col enabled level-filter\" id=\"level-filter-12\">12</div>\n"
    ++ "\t\t\t\t\t<div class=\"col enabled level-filter\" id=\"level-filter-13\">13</div>\n"
    ++ "\t\t\t\t\t<div class=\"col enabled level-filter\" id=\"level-filter-14\">14</div>\n"
    ++ "\t\t\t\t\t<div class=\"col enabled level-filter\" id=\"level-filter-15\">15</div>\n"
    ++ "\t\t\t\t</div>\n"
    ++ "\t\t\t\t<div class=\"row\">\n"
    ++ "\t\t\t\t\t<div class=\"col enabled level-filter\" id=\"level-filter-16\">16</div>\n"
    ++ "\t\t\t\t\t<div class=\"col enabled level-filter\" id=\"level-filter-17\">17</div>\n"
    ++ "\t\t\t\t\t<div class=\"col enabled level-filter\" id=\"level-filter-18\">18</div>\n"
    ++ "\t\t\t\t\t<div class=\"col enabled level-filter\" id=\"level-filter-19\">19</div>\n"
    ++ "\t\t\t\t\t<div class=\"col\"></div>\n"
    ++ "\t\t\t\t</div>\n"
    ++ "\t\t\t\t<div class=\"row\">\n"
    ++ "\t\t\t\t\t<div class=\"col\"></div>\n"
    ++ "\t\t\t\t\t<div class=\"col\" id=\"level-filter-all-enable\">All</div>\n"
    ++ "\t\t\t\t\t<div class=\"col\"></div>\n"
    ++ "\t\t\t\t\t<div class=\"col\" id=\"level-filter-all-disable\">None</div>\n"
    ++ "\t\t\t\t\t<div class=\"col\"></div>\n"
    ++ "\t\t\t\t</div>\n"
    ++ "\t\t\t</div>\n"
    ++ "\t\t</div>\n"
    ++ "\t\t<div class=\"row\">\n"
    ++ "\t\t</div>\n"
    ++ "\t\t<div class=\"row\">\n"
    ++ "\t\t</div>\n"
    ++ "\t\t<div class=\"row\">\n"
    ++ "\t\t</div>\n"
    ++ "\t\t<div class=\"row\">\n"
    ++ "\t\t</div>\n"
    ++ "\t</div>\n"
    ++ "\t<table border=\"0\" cellspacing=\"5\" cellpadding=\"5\">\n"
    ++ "\t\t<thead>\n"
    ++ "\t\t\t<tr>\n"
    ++ "\t\t\t\t<th>Mode</th>\n"
    ++ "\t\t\t\t<th>Difficulty</th>\n"
    ++ "\t\t\t\t<th>Lamp</th>\n"
    ++ "\t\t\t</tr>\n"
    ++ "\t\t</thead>\n"
    ++ "        <tbody><tr>\n"
    ++ "            <td><input type=\"checkbox\" id=\"single-filter\" name=\"single-filter\" checked> SINGLE</td>\n"
    ++ "\t\t\t<td><input type=\"checkbox\" id=\"beginner-filter\" name=\"beginner-filter\" checked> BEGINNER</td>\n"
    ++ "\t\t\t<td><input type=\"checkbox\" id=\"fail-filter\" name=\"fail-filter\" checked> FAIL</td>\n"
    ++ "        </tr><tr>\n"
    ++ "            <td><input type=\"checkbox\" id=\"double-filter\" name=\"double-filter\" checked> DOUBLE</td>\n"
    ++ "\t\t\t<td><input type=\"checkbox\" id=\"basic-filter\" name=\"basic-filter\" checked> BASIC</td>\n"
    ++ "\t\t\t<td><input type=\"checkbox\" id=\"clear-filter\" name=\"clear-filter\" checked> CLEAR</td>\n"
    ++ "        </tr><tr>\n"
    ++ "            <td></td>\n"
    ++ "\t\t\t<td><input type=\"checkbox\" id=\"difficult-filter\" name=\"difficult-filter\" checked> DIFFICULT </td>\n"
    ++ "\t\t\t<td><input type=\"checkbox\" id=\"good-filter\" name=\"good-filter\" checked> GOOD FC</td>\n"
    ++ "        </tr><tr>\n"
    ++ "            <td></td>\n"
    ++ "\t\t\t<td><input type=\"checkbox\" id=\"expert-filter\" name=\"expert-filter\" checked> EXPERT</td>\n"
    ++ "\t\t\t<td><input type=\"checkbox\" id=\"great-filter\" name=\"great-filter\" checked> GREAT FC</td>\n"
    ++ "        </tr><tr>\n"
    ++ "            <td></td>\n"
    ++ "\t\t\t<td><input type=\"checkbox\" id=\"challenge-filter\" name=\"challenge-filter\" checked> CHALLENGE</td>\n"
    ++ "\t\t\t<td><input type=\"checkbox\" id=\"perfect-filter\" name=\"perfect-filter\" checked> PERFECT FC</td>\n"
    ++ "        </tr><tr>\n"
    ++ "            <td></td>\n"
    ++ "\t\t\t<td></td>\n"
    ++ "\t\t\t<td><input type=\"checkbox\" id=\"marvellous-filter\" name=\"marvellous-filter\" checked> MARVELLOUS FC</td>\n"
    ++ "        </tr><tr>\n"
    ++ "\t\t\t<td></td>\n"
    ++ "\t\t\t<td></td>\n"
    ++ "\t\t\t<td><input type=\"checkbox\" id=\"unplayed-filter\" name=\"unplayed-filter\" checked> NOT PLAYED</td>\n"
    ++ "        </tr>\n"
    ++ "    </tbody></table>\n"
    ++ "\t</div>\n"
    ++ "\t</div>\n"
    ++ "\t<table id=\"stats\" class=\"display\" style=\"width:100%\">\n"
    ++ "        <thead>\n"
    ++ "            <tr>\n"
    ++ "                <th>Level</th>\n"
    ++ "                <th>Song Name</th>\n"
    ++ "                <th>Artist</th>\n"
    ++ "                <th>Mode</th>\n"
    ++ "                <th>Difficulty</th>\n"
    ++ "                <th>Clear Lamp</th>\n"
    ++ "                <th>Rank</th>\n"
    ++ "                <th>Score</th>\n"
    ++ "                <th>Play Count</th>\n"
    ++ "                <th>Clear Count</th>\n"
    ++ "                <th>Max Combo</th>\n"
    ++ "            </tr>\n"
    ++ "        </thead>\n"
    ++ "        <tbody>"

/-- The format `DdrStatsGetImpl` applies once per play record. -/
def statsRowFormat : String :=
  "%s\n"
    ++ "            <tr>\n"
    ++ "                <td>%d</td>\n"
    ++ "                <td>%s</td>\n"
    ++ "                <td>%s</td>\n"
    ++ "                <td>%s</td>\n"
    ++ "                <td>%s</td>\n"
    ++ "                <td>%s</td>\n"
    ++ "                <td>%s</td>\n"
    ++ "                <td>%d</td>\n"
    ++ "                <td>%d</td>\n"
    ++ "                <td>%d</td>\n"
    ++ "                <td>%d</td>\n"
    ++ "            </tr>"

/-- The format `DdrStatsGetImpl` applies after the loop. -/
def statsTableClosingFormat : String :=
  "%s\n"
    ++ "        </tbody>\n"
    ++ "        <tfoot>\n"
    ++ "            <tr>\n"
    ++ "                <th>Level</th>\n"
    ++ "                <th>Song Name</th>\n"
    ++ "                <th>Artist</th>\n"
    ++ "                <th>Mode</th>\n"
    ++ "                <th>Difficulty</th>\n"
    ++ "                <th>Clear Lamp</th>\n"
    ++ "                <th>Rank</th>\n"
    ++ "                <th>Score</th>\n"
    ++ "                <th>Play Count</th>\n"
    ++ "                <th>Clear Count</th>\n"
    ++ "                <th>Max Combo</th>\n"
    ++ "            </tr>\n"
    ++ "        </tfoot>\n"
    ++ "    </table>"

/-! ## The upstream calls -/

/-- The request `StatusGetImpl` builds: no header map is set. -/
def StatusGetRequest (p : Package) : Request :=
  { Method := MethodGet
    URL := "https://" ++ p.bstApi ++ p.bstApiBase ++ "status"
    Header := []
    Body := none }

/-- The function `StatusGetImpl`: the state of the api, the database and eagate. -/
def StatusGetImpl (p : Package) (c : Client) : ApiStatus × Client :=
  let status : ApiStatus := { Api := "bad", EaGate := "bad", Db := "bad" }
  let r := c.Do (StatusGetRequest p)
  match r.1 with
  | .error _ => (status, r.2)
  | .ok res =>
      let u := unmarshalApiStatus res.Body status
      if u.2 then ({ u.1 with Api := "unknown" }, r.2) else (u.1, r.2)

/-- The request `EagateLoginGetImpl` builds. -/
def EagateLoginGetRequest (p : Package) (token : String) : Request :=
  { Method := MethodGet
    URL := "https://" ++ p.bstApi ++ p.bstApiBase ++ "user/login"
    Header := Header.Add [] "Authorization" ("Bearer " ++ token)
    Body := none }

/-- The function `EagateLoginGetImpl`. The error of `json.Unmarshal` is dropped. -/
def EagateLoginGetImpl (p : Package) (m : BstModels) (c : Client) (token : String) :
    (Status × Slice m.EagateUser) × Client :=
  let r := c.Do (EagateLoginGetRequest p token)
  match r.1 with
  | .error _ => (({ Status := "bad", Message := "api error" }, none), r.2)
  | .ok res =>
      let users : Slice m.EagateUser := some []
      let users := (unmarshalSlice m.decodeEagateUser res.Body users).1
      (({ Status := "ok", Message := Sprintf "found %d users" [.d (Slice.len users)] }, users),
        r.2)

/-- The request `EagateLoginPostImpl` builds. -/
def EagateLoginPostRequest (p : Package) (m : BstModels) (token : String)
    (loginRequest : m.LoginRequest) : Request :=
  { Method := MethodPost
    URL := "https://" ++ p.bstApi ++ p.bstApiBase ++ "user/login"
    Header := Header.Add [] "Authorization" ("Bearer " ++ token)
    Body := some (m.marshalLoginRequest loginRequest) }

/-- The function `EagateLoginPostImpl`. The error of `json.Unmarshal` is dropped. -/
def EagateLoginPostImpl (p : Package) (m : BstModels) (c : Client) (token : String)
    (loginRequest : m.LoginRequest) : Status × Client :=
  let r := c.Do (EagateLoginPostRequest p m token loginRequest)
  match r.1 with
  | .error _ => ({ Status := "bad", Message := "api error" }, r.2)
  | .ok res => ((unmarshalStatus res.Body zeroStatus).1, r.2)

/-- The request `EagateLogoutPostImpl` builds. -/
def EagateLogoutPostRequest (p : Package) (m : BstModels) (token : String)
    (logoutRequest : m.LogoutRequest) : Request :=
  { Method := MethodPost
    URL := "https://" ++ p.bstApi ++ p.bstApiBase ++ "user/logout"
    Header := Header.Add [] "Authorization" ("Bearer " ++ token)
    Body := some (m.marshalLogoutRequest logoutRequest) }

/-- The function `EagateLogoutPostImpl`. The error of `json.Unmarshal` is dropped. -/
def EagateLogoutPostImpl (p : Package) (m : BstModels) (c : Client) (token : String)
    (logoutRequest : m.LogoutRequest) : Status × Client :=
  let r := c.Do (EagateLogoutPostRequest p m token logoutRequest)
  match r.1 with
  | .error _ => ({ Status := "bad", Message := "api error" }, r.2)
  | .ok res => ((unmarshalStatus res.Body zeroStatus).1, r.2)

/-- The request `DdrUpdatePatchImpl` builds. -/
def DdrUpdatePatchRequest (p : Package) (token : String) : Request :=
  { Method := MethodPatch
    URL := "https://" ++ p.bstApi ++ p.bstApiBase ++ "ddr/profile/update"
    Header := Header.Add [] "Authorization" ("Bearer " ++ token)
    Body := none }

/-- The function `DdrUpdatePatchImpl`. The error of `json.Unmarshal` is dropped. -/
def DdrUpdatePatchImpl (p : Package) (c : Client) (token : String) : Status × Client :=
  let r := c.Do (DdrUpdatePatchRequest p token)
  match r.1 with
  | .error _ => ({ Status := "bad", Message := "api error" }, r.2)
  | .ok res => ((unmarshalStatus res.Body zeroStatus).1, r.2)

/-- The request `DdrRefreshPatchImpl` builds. -/
def DdrRefreshPatchRequest (p : Package) (token : String) : Request :=
  { Method := MethodPatch
    URL := "https://" ++ p.bstApi ++ p.bstApiBase ++ "ddr/profile/refresh"
    Header := Header.Add [] "Authorization" ("Bearer " ++ token)
    Body := none }

/-- The function `DdrRefreshPatchImpl`. The error of `json.Unmarshal` is dropped. -/
def DdrRefreshPatchImpl (p : Package) (c : Client) (token : String) : Status × Client :=
  let r := c.Do (DdrRefreshPatchRequest p token)
  match r.1 with
  | .error _ => ({ Status := "bad", Message := "api error" }, r.2)
  | .ok res => ((unmarshalStatus res.Body zeroStatus).1, r.2)

/-- The request `DdrStatsGetImpl` builds. -/
def DdrStatsGetRequest (p : Package) (token : String) : Request :=
  { Method := MethodGet
    URL := "https://" ++ p.bstApi ++ p.bstApiBase ++ "ddr/songs/scores/extended"
    Header := Header.Add [] "Authorization" ("Bearer " ++ token)
    Body := none }

/-- The rendering part of `DdrStatsGetImpl`: the opening markup, one `Sprintf` per play
record in a loop over the slice, and the closing `Sprintf`. -/
def renderStats (statsFromServer : Slice DdrStatisticsTable) : String :=
  let stats := statsTableOpening
  let stats := (Slice.elems statsFromServer).foldl
    (fun stats stat =>
      Sprintf statsRowFormat
        [.s stats, .d stat.Level, .s stat.Title, .s stat.Artist, .s stat.Mode,
          .s stat.Difficulty, .s stat.Lamp, .s stat.Rank, .d stat.Score, .d stat.PlayCount,
          .d stat.ClearCount, .d stat.MaxCombo])
    stats
  Sprintf statsTableClosingFormat [.s stats]

/-- The function `DdrStatsGetImpl`. -/
def DdrStatsGetImpl (p : Package) (m : BstModels) (c : Client) (token : String) :
    String × Client :=
  let r := c.Do (DdrStatsGetRequest p token)
  match r.1 with
  | .error _ => ("<a>API Error</a>", r.2)
  | .ok res =>
      let statsFromServer : Slice DdrStatisticsTable := some []
      let u := unmarshalSlice m.decodeDdrStatisticsTable res.Body statsFromServer
      if u.2 then ("<a>API Error</a>", r.2) else (renderStats u.1, r.2)

/-! ## The handlers

A handler takes the client state and the response writer and gives both back. What the
handlers print to standard output is left out. -/

/-- The handler `StatusGet`. -/
def StatusGet (p : Package) (c : Client) (rw : ResponseWriter) (_r : HttpRequest) :
    ResponseWriter × Client :=
  let s := StatusGetImpl p c
  let bytes := marshalApiStatus s.1
  let rw := rw.WriteHeader StatusOK
  (rw.Write bytes, s.2)

/-- The handler `EagateLoginGet`. -/
def EagateLoginGet (p : Package) (m : BstModels) (c : Client) (rw : ResponseWriter)
    (r : HttpRequest) : ResponseWriter × Client :=
  match p.TokenForRequest r with
  | .error err =>
      let status : Status := { Status := "bad", Message := err }
      let bytes := marshalStatus status
      let rw := rw.WriteHeader StatusUnauthorized
      (rw.Write bytes, c)
  | .ok token =>
      let s := EagateLoginGetImpl p m c token
      if s.1.1.Status = "bad" then
        let bytes := marshalStatus s.1.1
        let rw := rw.WriteHeader StatusInternalServerError
        (rw.Write bytes, s.2)
      else
        let bytes := m.marshalEagateUsers s.1.2
        let rw := rw.WriteHeader StatusOK
        (rw.Write bytes, s.2)

/-- The handler `EagateLoginPost`. -/
def EagateLoginPost (p : Package) (m : BstModels) (c : Client) (rw : ResponseWriter)
    (r : HttpRequest) : ResponseWriter × Client :=
  match p.TokenForRequest r with
  | .error err =>
      let status : Status := { Status := "bad", Message := err }
      let bytes := marshalStatus status
      let rw := rw.WriteHeader StatusUnauthorized
      (rw.Write bytes, c)
  | .ok token =>
      match r.Body with
      | .error err =>
          let status : Status := { Status := "bad", Message := err }
          let bytes := marshalStatus status
          let rw := rw.WriteHeader StatusUnauthorized
          (rw.Write bytes, c)
      | .ok body =>
          let loginRequest := m.decodeLoginRequest body
          let s := EagateLoginPostImpl p m c token loginRequest
          let bytes := marshalStatus s.1
          let rw :=
            if s.1.Status = "ok" then rw.WriteHeader StatusOK
            else rw.WriteHeader StatusInternalServerError
          (rw.Write bytes, s.2)

/-- The handler `EagateLogoutPost`. -/
def EagateLogoutPost (p : Package) (m : BstModels) (c : Client) (rw : ResponseWriter)
    (r : HttpRequest) : ResponseWriter × Client :=
  match p.TokenForRequest r with
  | .error err =>
      let status : Status := { Status := "bad", Message := err }
      let bytes := marshalStatus status
      let rw := rw.WriteHeader StatusUnauthorized
      (rw.Write bytes, c)
  | .ok token =>
      match r.Body with
      | .error err =>
          let status : Status := { Status := "bad", Message := err }
          let bytes := marshalStatus status
          let rw := rw.WriteHeader StatusUnauthorized
          (rw.Write bytes, c)
      | .ok body =>
          let logoutRequest := m.decodeLogoutRequest body
          let s := EagateLogoutPostImpl p m c token logoutRequest
          let bytes := marshalStatus s.1
          let rw :=
            if s.1.Status = "ok" then rw.WriteHeader StatusOK
            else rw.WriteHeader StatusInternalServerError
          (rw.Write bytes, s.2)

/-- The handler `DdrUpdatePatch`. -/
def DdrUpdatePatch (p : Package) (c : Client) (rw : ResponseWriter) (r : HttpRequest) :
    ResponseWriter × Client :=
  match p.TokenForRequest r with
  | .error err =>
      let status : Status := { Status := "bad", Message := err }
      let bytes := marshalStatus status
      let rw := rw.WriteHeader StatusUnauthorized
      (rw.Write bytes, c)
  | .ok token =>
      let s := DdrUpdatePatchImpl p c token
      let bytes := marshalStatus s.1
      let rw :=
        if s.1.Status = "ok" then rw.WriteHeader StatusOK
        else rw.WriteHeader StatusInternalServerError
      (rw.Write bytes, s.2)

/-- The handler `DdrRefreshPatch`. -/
def DdrRefreshPatch (p : Package) (c : Client) (rw : ResponseWriter) (r : HttpRequest) :
    ResponseWriter × Client :=
  match p.TokenForRequest r with
  | .error err =>
      let status : Status := { Status := "bad", Message := err }
      let bytes := marshalStatus status
      let rw := rw.WriteHeader StatusUnauthorized
      (rw.Write bytes, c)
  | .ok token =>
      let s := DdrRefreshPatchImpl p c token
      let bytes := marshalStatus s.1
      let rw :=
        if s.1.Status = "ok" then rw.WriteHeader StatusOK
        else rw.WriteHeader StatusInternalServerError
      (rw.Write bytes, s.2)

/-- The handler `DdrStatsGet`. On success it writes the body without calling
`WriteHeader`. -/
def DdrStatsGet (p : Package) (m : BstModels) (c : Client) (rw : ResponseWriter)
    (r : HttpRequest) : ResponseWriter × Client :=
  match p.TokenForRequest r with
  | .error err =>
      let status : Status := { Status := "bad", Message := err }
      let bytes := marshalStatus status
      let rw := rw.WriteHeader StatusUnauthorized
      (rw.Write bytes, c)
  | .ok token =>
      let s := DdrStatsGetImpl p m c token
      (rw.Write (.text s.1), s.2)

/-! ## The operations and handlers, enumerated -/

/-- The handlers that ask `TokenForRequest` for a token before anything else. -/
def protectedHandlers (p : Package) (m : BstModels) :
    List (Client → ResponseWriter → HttpRequest → ResponseWriter × Client) :=
  [EagateLoginGet p m, EagateLoginPost p m, EagateLogoutPost p m, DdrUpdatePatch p,
    DdrRefreshPatch p, DdrStatsGet p m]

/-- The five upstream operations whose outcome is a `bst_models.Status`. -/
inductive Operation (m : BstModels) where
  | listIdentities
  | login (loginRequest : m.LoginRequest)
  | logout (logoutRequest : m.LogoutRequest)
  | profileUpdate
  | profileRefresh

/-- The request an operation sends upstream. -/
def Operation.request (p : Package) {m : BstModels} (token : String) : Operation m → Request
  | .listIdentities => EagateLoginGetRequest p token
  | .login loginRequest => EagateLoginPostRequest p m token loginRequest
  | .logout logoutRequest => EagateLogoutPostRequest p m token logoutRequest
  | .profileUpdate => DdrUpdatePatchRequest p token
  | .profileRefresh => DdrRefreshPatchRequest p token

/-- The `*Impl` function of an operation: the `Status` it returns and the client state it
leaves. -/
def Operation.impl (p : Package) {m : BstModels} (c : Client) (token : String) :
    Operation m → Status × Client
  | .listIdentities => ((EagateLoginGetImpl p m c token).1.1, (EagateLoginGetImpl p m c token).2)
  | .login loginRequest => EagateLoginPostImpl p m c token loginRequest
  | .logout logoutRequest => EagateLogoutPostImpl p m c token logoutRequest
  | .profileUpdate => DdrUpdatePatchImpl p c token
  | .profileRefresh => DdrRefreshPatchImpl p c token

/-- Whether the operation decodes the upstream body into its `Status` (all but the listing of
identities, which decodes a list of users). -/
def Operation.decodesStatus {m : BstModels} : Operation m → Bool
  | .listIdentities => false
  | _ => true

/-- Whether `json.Unmarshal` of the upstream body into the shape the operation expects
returns a nil error. -/
def Operation.decodes {m : BstModels} (op : Operation m) (body : JSONInput) : Bool :=
  match op with
  | .listIdentities => !(unmarshalSlice m.decodeEagateUser body (some [])).2
  | _ => !(unmarshalStatus body zeroStatus).2

/-- The four endpoints that answer with a `bst_models.Status` and a status code derived from
it. -/
inductive Endpoint where
  | eagateLogin
  | eagateLogout
  | ddrUpdate
  | ddrRefresh
  deriving DecidableEq, Repr

/-- The handler of an endpoint. -/
def Endpoint.handler (p : Package) (m : BstModels) :
    Endpoint → Client → ResponseWriter → HttpRequest → ResponseWriter × Client
  | .eagateLogin => EagateLoginPost p m
  | .eagateLogout => EagateLogoutPost p m
  | .ddrUpdate => DdrUpdatePatch p
  | .ddrRefresh => DdrRefreshPatch p

/-- The operation the handler of an endpoint runs for a request whose body was read as
`body`. -/
def Endpoint.operation (m : BstModels) (body : JSONInput) : Endpoint → Operation m
  | .eagateLogin => .login (m.decodeLoginRequest body)
  | .eagateLogout => .logout (m.decodeLogoutRequest body)
  | .ddrUpdate => .profileUpdate
  | .ddrRefresh => .profileRefresh

/-- Whether the handler of the endpoint reads the request body. -/
def Endpoint.readsBody : Endpoint → Bool
  | .eagateLogin => true
  | .eagateLogout => true
  | _ => false

/-- The requests the six authenticated operations build for one token. -/
def authenticatedRequests (p : Package) (m : BstModels) (token : String)
    (loginRequest : m.LoginRequest) (logoutRequest : m.LogoutRequest) : List Request :=
  [EagateLoginGetRequest p token, EagateLoginPostRequest p m token loginRequest,
    EagateLogoutPostRequest p m token logoutRequest, DdrUpdatePatchRequest p token,
    DdrRefreshPatchRequest p token, DdrStatsGetRequest p token]

/-- The client states the `*Impl` functions of the six authenticated operations leave, each
run on the client `c`, in the order of `authenticatedRequests`. -/
def authenticatedCalls (p : Package) (m : BstModels) (c : Client) (token : String)
    (loginRequest : m.LoginRequest) (logoutRequest : m.LogoutRequest) : List Client :=
  [(EagateLoginGetImpl p m c token).2, (EagateLoginPostImpl p m c token loginRequest).2,
    (EagateLogoutPostImpl p m c token logoutRequest).2, (DdrUpdatePatchImpl p c token).2,
    (DdrRefreshPatchImpl p c token).2, (DdrStatsGetImpl p m c token).2]

/-! ## The statistics table, block by block -/

/-- The cells of the row of one play record, in column order. -/
def statsRowCells (stat : DdrStatisticsTable) : List String :=
  [toString stat.Level, stat.Title, stat.Artist, stat.Mode, stat.Difficulty, stat.Lamp,
    stat.Rank, toString stat.Score, toString stat.PlayCount, toString stat.ClearCount,
    toString stat.MaxCombo]

/-- The row block of one play record: a `tr` element holding one `td` element per cell. -/
def statsRowBlock (stat : DdrStatisticsTable) : String :=
  "\n            <tr>"
    ++ String.join
      ((statsRowCells stat).map fun cell => "\n                <td>" ++ cell ++ "</td>")
    ++ "\n            </tr>"

/-- The closing markup of the stats table: the end of its body and its footer row. -/
def statsTableClosing : String :=
  "\n"
    ++ "        </tbody>\n"
    ++ "        <tfoot>\n"
    ++ "            <tr>\n"
    ++ "                <th>Level</th>\n"
    ++ "                <th>Song Name</th>\n"
    ++ "                <th>Artist</th>\n"
    ++ "                <th>Mode</th>\n"
    ++ "                <th>Difficulty</th>\n"
    ++ "                <th>Clear Lamp</th>\n"
    ++ "                <th>Rank</th>\n"
    ++ "                <th>Score</th>\n"
    ++ "                <th>Play Count</th>\n"
    ++ "                <th>Clear Count</th>\n"
    ++ "                <th>Max Combo</th>\n"
    ++ "            </tr>\n"
    ++ "        </tfoot>\n"
    ++ "    </table>"

/-! ## The session store and the handler WhoAmI of server.go -/

/-- A Go value of type `interface{}`, as far as the type assertions of `WhoAmI` tell values
apart: the nil interface, a string, a `map[string]interface{}`, or a value of any other
dynamic type (here only described). -/
inductive Value where
  | nil
  | str (s : String)
  | stringMap (entries : List (String × Value))
  | other (description : String)

/-- The index expression `m[key]` on a map with values of type `interface{}`: the value of
the key, or the nil interface when the key is not in the map. -/
def mapIndex : List (String × Value) → String → Value
  | [], _ => .nil
  | (k, v) :: rest, key => if k = key then v else mapIndex rest key

/-- The second result of the index expression `_, ok := m[key]`: whether the key is in the
map. -/
def mapHas : List (String × Value) → String → Bool
  | [], _ => false
  | (k, _) :: rest, key => if k = key then true else mapHas rest key

/-- A `sessions.Session`: its `Values`, by key. The handler looks up string keys only, so
entries under keys of another type are left out. -/
structure Session where
  Values : List (String × Value)

/-- What server.go uses of package utilities for `WhoAmI`: the method `Store.Get`, which
gives, for a request and a session name, an error (here its text) or a pointer to a session,
which may be nil. -/
structure Utilities where
  StoreGet : HttpRequest → String → Except String (Option Session)

/-- The handler `WhoAmI`. -/
def WhoAmI (u : Utilities) (rw : ResponseWriter) (r : HttpRequest) : ResponseWriter :=
  match u.StoreGet r "auth-session" with
  | .error _ =>
      let rw := rw.WriteHeader StatusOK
      rw.Write (.text "")
  | .ok session =>
      let fallThrough :=
        let rw := rw.WriteHeader StatusOK
        rw.Write (.text "")
      match session with
      | none => fallThrough
      | some session =>
          if mapHas session.Values "access_token" then
            match mapIndex session.Values "profile" with
            | .stringMap profileMap =>
                match mapIndex profileMap "nickname" with
                | .str nickname =>
                    let rw := rw.WriteHeader StatusOK
                    rw.Write (.text nickname)
                | _ => fallThrough
            | _ => fallThrough
          else fallThrough

/-! ## Sample values -/

/-- The zero value of `bst_models.DdrStatisticsTable`. -/
def zeroRecord : DdrStatisticsTable :=
  { Level := 0, Title := "", Artist := "", Mode := "", Difficulty := "", Lamp := "",
    Rank := "", Score := 0, PlayCount := 0, ClearCount := 0, MaxCombo := 0 }

/-- A play record with a title, a level and a score. -/
def sampleRecord : DdrStatisticsTable :=
  { zeroRecord with Title := "PARANOiA", Level := 11, Score := 987650 }

/-- A sample instance of the models: users are names, a login request is a pair of user name
and password, a logout request is a user name, and a play record is decoded from an object
with the single member `title`. -/
def sampleModels : BstModels :=
  { EagateUser := String
    LoginRequest := String × String
    LogoutRequest := String
    decodeEagateUser := fun v =>
      match v with
      | .str s => (s, false)
      | _ => ("", true)
    marshalEagateUsers := fun users =>
      match users with
      | none => .json .null
      | some xs => .json (.array (xs.map .str))
    decodeLoginRequest := fun _ => ("", "")
    marshalLoginRequest := fun r =>
      .json (.object [("username", .str r.1), ("password", .str r.2)])
    decodeLogoutRequest := fun _ => ""
    marshalLogoutRequest := fun r => .json (.object [("username", .str r)])
    decodeDdrStatisticsTable := fun v =>
      match v with
      | .object [("title", .str t)] => ({ zeroRecord with Title := t }, false)
      | _ => (zeroRecord, true) }

/-- A sample package: the token of a request is the first value of its `X-Token` header. -/
def samplePackage : Package :=
  { bstApi := "bst.example.org"
    bstApiBase := "/api/"
    TokenForRequest := fun r =>
      match Header.Values r.Header "X-Token" with
      | [] => .error "no token in session"
      | t :: _ => .ok t }

/-- A request without a session. -/
def anonymousRequest : HttpRequest :=
  { Method := MethodPost, Path := "/bst_api/eagate_login", Header := [], Body := .ok none }

/-- A request whose session holds the token `tok`. -/
def sessionRequest : HttpRequest :=
  { Method := MethodPost, Path := "/bst_api/eagate_login", Header := [("X-Token", ["tok"])],
    Body := .ok none }

/-- A client whose upstream cannot be reached. -/
def unreachableClient : Client := InitClient fun _ => .error "dial tcp: i/o timeout"

/-- A client whose upstream answers every request with the given status code and body. -/
def answeringClient (code : Nat) (body : JSONInput) : Client :=
  InitClient fun _ => .ok { StatusCode := code, Header := [], Body := body }

/-- The same client in front of an upstream that answers as before, except that the status
code of each response is replaced by `code req res`. -/
def Client.recode (c : Client) (code : Request → Response → Nat) : Client :=
  { c with
    transport := fun req =>
      match c.transport req with
      | .error e => .error e
      | .ok res => .ok { res with StatusCode := code req res } }

/-- A request whose session holds the token `tok` and whose body cannot be read. -/
def brokenBodyRequest : HttpRequest :=
  { Method := MethodPost, Path := "/bst_api/eagate_login", Header := [("X-Token", ["tok"])],
    Body := .error "unexpected EOF" }

/-- A store that finds, for every request, a session with the given values. -/
def storeWith (values : List (String × Value)) : Utilities :=
  { StoreGet := fun _ _ => .ok (some { Values := values }) }

/-- A store whose lookup fails. -/
def failingStore : Utilities :=
  { StoreGet := fun _ _ => .error "securecookie: the value is not valid" }

/-- The values of a session after the authentication handshake: a token and a profile with
the nickname dancer. -/
def loggedInValues : List (String × Value) :=
  [("access_token", .str "tok"),
    ("profile", .stringMap [("name", .str "D. Dancer"), ("nickname", .str "dancer")])]

/-! ## Theorems -/

/-- C1: every protected handler, on a request for which `TokenForRequest` fails, answers 401
with the envelope of status bad and the text of the error as message, and leaves the client
untouched: nothing is sent upstream. -/
theorem protected_handler_rejects_without_token (p : Package) (m : BstModels) (c : Client)
    (rw : ResponseWriter) (r : HttpRequest) (err : String)
    (hrw : rw.wroteHeader = false) (h : p.TokenForRequest r = .error err) :
    ∀ handler ∈ protectedHandlers p m,
      (handler c rw r).1.Code = 401 ∧
      (handler c rw r).1.Body = rw.Body ++
        [Bytes.json (.object [("status", .str "bad"), ("message", .str err)])] ∧
      (handler c rw r).2 = c := by
  intro handler hmem
  simp only [protectedHandlers, List.mem_cons, List.mem_singleton, List.not_mem_nil,
    or_false] at hmem
  rcases hmem with rfl | rfl | rfl | rfl | rfl | rfl <;>
    simp [EagateLoginGet, EagateLoginPost, EagateLogoutPost, DdrUpdatePatch, DdrRefreshPatch,
      DdrStatsGet, h, ResponseWriter.Write, ResponseWriter.WriteHeader, hrw, marshalStatus,
      StatusUnauthorized]

/-- C1, at a request without a session: each of the six handlers answers 401 and sends
nothing. -/
theorem protected_handler_rejects_without_token_witness :
    ResponseWriter.fresh.wroteHeader = false ∧
    samplePackage.TokenForRequest anonymousRequest = .error "no token in session" ∧
    ∀ handler ∈ protectedHandlers samplePackage sampleModels,
      (handler unreachableClient .fresh anonymousRequest).1.Code = 401 ∧
      (handler unreachableClient .fresh anonymousRequest).1.Body = ResponseWriter.fresh.Body ++
        [Bytes.json (.object [("status", .str "bad"),
          ("message", .str "no token in session")])] ∧
      (handler unreachableClient .fresh anonymousRequest).2 = unreachableClient :=
  ⟨rfl, rfl, protected_handler_rejects_without_token samplePackage sampleModels
    unreachableClient .fresh anonymousRequest "no token in session" rfl rfl⟩

/-- C2: whenever the upstream call of an operation returns a transport error, its `*Impl`
function returns status bad with the message api error, whatever the operation. -/
theorem impl_transport_error (p : Package) (m : BstModels) (c : Client) (token : String)
    (op : Operation m) (e : String)
    (h : (c.Do (op.request p token)).1 = .error e) :
    (op.impl p c token).1 = { Status := "bad", Message := "api error" } := by
  cases op <;>
    simp_all [Operation.request, Operation.impl, EagateLoginGetImpl, EagateLoginPostImpl,
      EagateLogoutPostImpl, DdrUpdatePatchImpl, DdrRefreshPatchImpl]

/-- C2, at an unreachable upstream, for the login operation. -/
theorem impl_transport_error_witness :
    (unreachableClient.Do
      ((Operation.login ("u", "pw") : Operation sampleModels).request samplePackage "tok")).1
      = .error "dial tcp: i/o timeout" ∧
    ((Operation.login ("u", "pw") : Operation sampleModels).impl samplePackage
      unreachableClient "tok").1 = { Status := "bad", Message := "api error" } :=
  ⟨rfl, impl_transport_error samplePackage sampleModels unreachableClient "tok"
    (.login ("u", "pw")) "dial tcp: i/o timeout" rfl⟩

/-- A field of type string keeps its value or takes the string the member holds. -/
theorem storeString_fst (v : JValue) (cur : String) :
    (storeString v cur).1 = cur ∨ v = .str (storeString v cur).1 := by
  cases v <;> simp [storeString]

/-- After the members of an object are stored, `EaGate` is what it was, or the string of a
member named eagate. -/
theorem foldl_storeApiStatusMember_EaGate (ms : List (String × JValue))
    (acc : ApiStatus × Bool) :
    (ms.foldl storeApiStatusMember acc).1.EaGate = acc.1.EaGate ∨
    ∃ k, keyMatches "eagate" k = true ∧
      (k, JValue.str (ms.foldl storeApiStatusMember acc).1.EaGate) ∈ ms := by
  induction ms generalizing acc with
  | nil => simp
  | cons m rest ih =>
    rw [List.foldl_cons]
    rcases ih (storeApiStatusMember acc m) with h | ⟨k, hk, hmem⟩
    · rw [h]
      unfold storeApiStatusMember
      split_ifs with h1 h2 h3
      · simp
      · rcases storeString_fst m.2 acc.1.EaGate with h' | h'
        · left; simpa using h'
        · right
          refine ⟨m.1, h2, ?_⟩
          simp only [List.mem_cons]
          left
          exact Prod.ext rfl h'.symm
      · simp
      · simp
    · exact Or.inr ⟨k, hk, List.mem_cons_of_mem _ hmem⟩

/-- After the members of an object are stored, `Db` is what it was, or the string of a member
named db. -/
theorem foldl_storeApiStatusMember_Db (ms : List (String × JValue))
    (acc : ApiStatus × Bool) :
    (ms.foldl storeApiStatusMember acc).1.Db = acc.1.Db ∨
    ∃ k, keyMatches "db" k = true ∧
      (k, JValue.str (ms.foldl storeApiStatusMember acc).1.Db) ∈ ms := by
  induction ms generalizing acc with
  | nil => simp
  | cons m rest ih =>
    rw [List.foldl_cons]
    rcases ih (storeApiStatusMember acc m) with h | ⟨k, hk, hmem⟩
    · rw [h]
      unfold storeApiStatusMember
      split_ifs with h1 h2 h3
      · simp
      · simp
      · rcases storeString_fst m.2 acc.1.Db with h' | h'
        · left; simpa using h'
        · right
          refine ⟨m.1, h3, ?_⟩
          simp only [List.mem_cons]
          left
          exact Prod.ext rfl h'.symm
      · simp
    · exact Or.inr ⟨k, hk, List.mem_cons_of_mem _ hmem⟩

/-- Decoding anything but a JSON object leaves an `ApiStatus` as it was. -/
theorem unmarshalApiStatus_of_not_object (body : JSONInput) (status : ApiStatus)
    (h : ∀ ms, body ≠ some (.object ms)) : (unmarshalApiStatus body status).1 = status := by
  unfold unmarshalApiStatus
  split <;> simp_all

/-- C3, as stated, fails: the upstream answers with a JSON object whose `api` member is a
number and whose `eagate` member is the string ok. Decoding returns an error, `api` becomes
unknown, and `eagate` holds the decoded ok, not its default bad. -/
theorem status_get_partial_decode_promoted :
    (answeringClient 200 (some (.object [("eagate", .str "ok"), ("api", .number "5")]))).transport
      (StatusGetRequest samplePackage)
      = .ok { StatusCode := 200, Header := [],
              Body := some (.object [("eagate", .str "ok"), ("api", .number "5")]) } ∧
    (unmarshalApiStatus (some (.object [("eagate", .str "ok"), ("api", .number "5")]))
      { Api := "bad", EaGate := "bad", Db := "bad" }).2 = true ∧
    (StatusGetImpl samplePackage
      (answeringClient 200 (some (.object [("eagate", .str "ok"), ("api", .number "5")])))).1
      = { Api := "unknown", EaGate := "ok", Db := "bad" } := by
  refine ⟨rfl, ?_, ?_⟩
  · decide
  · decide

/-- C3, amended: when the upstream call fails at transport level the three fields are bad;
when it succeeds and decoding the body returns an error, `api` is unknown, and each of
`eagate` and `db` is either its default bad or the string of a member of that name in the
body object, which was stored before or after the member that failed; both are bad when the
body is not a JSON object. -/
theorem status_get_failure_mapping (p : Package) (c : Client) :
    (∀ e, (c.Do (StatusGetRequest p)).1 = .error e →
      (StatusGetImpl p c).1 = { Api := "bad", EaGate := "bad", Db := "bad" }) ∧
    (∀ res, (c.Do (StatusGetRequest p)).1 = .ok res →
      (unmarshalApiStatus res.Body { Api := "bad", EaGate := "bad", Db := "bad" }).2 = true →
      (StatusGetImpl p c).1.Api = "unknown" ∧
      ((∀ ms, res.Body ≠ some (.object ms)) →
        (StatusGetImpl p c).1 = { Api := "unknown", EaGate := "bad", Db := "bad" }) ∧
      ((StatusGetImpl p c).1.EaGate = "bad" ∨
        ∃ ms k, res.Body = some (.object ms) ∧ keyMatches "eagate" k = true ∧
          (k, JValue.str (StatusGetImpl p c).1.EaGate) ∈ ms) ∧
      ((StatusGetImpl p c).1.Db = "bad" ∨
        ∃ ms k, res.Body = some (.object ms) ∧ keyMatches "db" k = true ∧
          (k, JValue.str (StatusGetImpl p c).1.Db) ∈ ms)) := by
  constructor
  · intro e h
    simp [StatusGetImpl, h]
  · intro res h herr
    have hval : (StatusGetImpl p c).1 =
        { (unmarshalApiStatus res.Body { Api := "bad", EaGate := "bad", Db := "bad" }).1 with
          Api := "unknown" } := by
      simp [StatusGetImpl, h, herr]
    rw [hval]
    refine ⟨rfl, ?_, ?_, ?_⟩
    · intro hno
      rw [unmarshalApiStatus_of_not_object _ _ hno]
    · cases hb : res.Body with
      | none => left; simp [unmarshalApiStatus]
      | some v =>
        cases v with
        | object ms =>
          rcases foldl_storeApiStatusMember_EaGate ms
            ({ Api := "bad", EaGate := "bad", Db := "bad" }, false) with h' | ⟨k, hk, hmem⟩
          · left; simpa [unmarshalApiStatus] using h'
          · right; exact ⟨ms, k, rfl, hk, by simpa [unmarshalApiStatus] using hmem⟩
        | _ => left; simp [unmarshalApiStatus]
    · cases hb : res.Body with
      | none => left; simp [unmarshalApiStatus]
      | some v =>
        cases v with
        | object ms =>
          rcases foldl_storeApiStatusMember_Db ms
            ({ Api := "bad", EaGate := "bad", Db := "bad" }, false) with h' | ⟨k, hk, hmem⟩
          · left; simpa [unmarshalApiStatus] using h'
          · right; exact ⟨ms, k, rfl, hk, by simpa [unmarshalApiStatus] using hmem⟩
        | _ => left; simp [unmarshalApiStatus]

/-- C3, amended, at an unreachable upstream and at an upstream whose body is not JSON. -/
theorem status_get_failure_mapping_witness :
    (StatusGetImpl samplePackage unreachableClient).1
      = { Api := "bad", EaGate := "bad", Db := "bad" } ∧
    (StatusGetImpl samplePackage (answeringClient 200 none)).1
      = { Api := "unknown", EaGate := "bad", Db := "bad" } :=
  ⟨(status_get_failure_mapping samplePackage unreachableClient).1 "dial tcp: i/o timeout" rfl,
   ((status_get_failure_mapping samplePackage (answeringClient 200 none)).2
      { StatusCode := 200, Header := [], Body := none } rfl rfl).2.1
      (fun _ h => by cases h)⟩

/-- C4, as stated, fails: the login handler answers 401 to a request whose token is found in
the session and whose body cannot be read. -/
theorem login_unreadable_body_is_401 :
    samplePackage.TokenForRequest brokenBodyRequest = .ok "tok" ∧
    (EagateLoginPost samplePackage sampleModels (answeringClient 200 none) .fresh
      brokenBodyRequest).1.Code = 401 := by
  constructor
  · rfl
  · decide

/-- The status code after `WriteHeader` and `Write` on a writer not yet used. -/
theorem writeHeader_write_code (rw : ResponseWriter) (code : Nat) (b : Bytes)
    (hrw : rw.wroteHeader = false) : ((rw.WriteHeader code).Write b).Code = code := by
  simp [ResponseWriter.Write, ResponseWriter.WriteHeader, hrw]

/-- The body after `WriteHeader` and `Write` on a writer not yet used. -/
theorem writeHeader_write_body (rw : ResponseWriter) (code : Nat) (b : Bytes)
    (hrw : rw.wroteHeader = false) : ((rw.WriteHeader code).Write b).Body = rw.Body ++ [b] := by
  simp [ResponseWriter.Write, ResponseWriter.WriteHeader, hrw]

/-- A `Write` on a writer not yet used sends the status code 200. -/
theorem write_code (rw : ResponseWriter) (b : Bytes) (hrw : rw.wroteHeader = false) :
    (rw.Write b).Code = 200 := by
  simp [ResponseWriter.Write, ResponseWriter.WriteHeader, hrw, StatusOK]

/-- Replacing the status codes of the upstream responses changes neither whether `Do` fails
nor the body of the response. -/
theorem recode_Do (c : Client) (code : Request → Response → Nat) (req : Request) :
    (∃ e, (c.Do req).1 = .error e ∧ ((c.recode code).Do req).1 = .error e) ∨
    (∃ res res2, (c.Do req).1 = .ok res ∧ ((c.recode code).Do req).1 = .ok res2 ∧
      res2.Body = res.Body) := by
  cases h : c.transport (c.outgoing req) with
  | error e =>
    left
    refine ⟨e, by simp [Client.Do, h], ?_⟩
    simp [Client.Do, Client.recode, Client.outgoing] at h ⊢
    simp [h]
  | ok res =>
    right
    refine ⟨res, { res with StatusCode := code (c.outgoing req) res },
      by simp [Client.Do, h], ?_, rfl⟩
    simp [Client.Do, Client.recode, Client.outgoing] at h ⊢
    simp [h]

/-- The outcome of an operation does not depend on the status codes of the upstream
responses. -/
theorem recode_impl (p : Package) (m : BstModels) (c : Client)
    (code : Request → Response → Nat) (token : String) (op : Operation m) :
    (op.impl p (c.recode code) token).1 = (op.impl p c token).1 := by
  cases op
  · rcases recode_Do c code (EagateLoginGetRequest p token) with
      ⟨e, h1, h2⟩ | ⟨res, res2, h1, h2, hb⟩ <;>
      simp_all [Operation.impl, EagateLoginGetImpl]
  · rename_i lr
    rcases recode_Do c code (EagateLoginPostRequest p m token lr) with
      ⟨e, h1, h2⟩ | ⟨res, res2, h1, h2, hb⟩ <;>
      simp_all [Operation.impl, EagateLoginPostImpl]
  · rename_i lo
    rcases recode_Do c code (EagateLogoutPostRequest p m token lo) with
      ⟨e, h1, h2⟩ | ⟨res, res2, h1, h2, hb⟩ <;>
      simp_all [Operation.impl, EagateLogoutPostImpl]
  · rcases recode_Do c code (DdrUpdatePatchRequest p token) with
      ⟨e, h1, h2⟩ | ⟨res, res2, h1, h2, hb⟩ <;>
      simp_all [Operation.impl, DdrUpdatePatchImpl]
  · rcases recode_Do c code (DdrRefreshPatchRequest p token) with
      ⟨e, h1, h2⟩ | ⟨res, res2, h1, h2, hb⟩ <;>
      simp_all [Operation.impl, DdrRefreshPatchImpl]

/-- The status code of the four handlers, once the token is there and the body is read: 200
for the status ok, 500 otherwise. -/
theorem handler_code_of_outcome (p : Package) (m : BstModels) (c : Client)
    (rw : ResponseWriter) (r : HttpRequest) (ep : Endpoint) (token : String) (body : JSONInput)
    (hrw : rw.wroteHeader = false) (h : p.TokenForRequest r = .ok token)
    (hbody : ep.readsBody = true → r.Body = .ok body) :
    (ep.handler p m c rw r).1.Code =
      if ((ep.operation m body).impl p c token).1.Status = "ok" then 200 else 500 := by
  cases ep
  · have hb : r.Body = .ok body := hbody rfl
    simp only [Endpoint.handler, EagateLoginPost, h, hb, Endpoint.operation, Operation.impl, StatusOK,
      StatusInternalServerError]
    split_ifs <;> simp [writeHeader_write_code _ _ _ hrw]
  · have hb : r.Body = .ok body := hbody rfl
    simp only [Endpoint.handler, EagateLogoutPost, h, hb, Endpoint.operation, Operation.impl, StatusOK,
      StatusInternalServerError]
    split_ifs <;> simp [writeHeader_write_code _ _ _ hrw]
  · simp only [Endpoint.handler, DdrUpdatePatch, h, Endpoint.operation, Operation.impl, StatusOK,
      StatusInternalServerError]
    split_ifs <;> simp [writeHeader_write_code _ _ _ hrw]
  · simp only [Endpoint.handler, DdrRefreshPatch, h, Endpoint.operation, Operation.impl, StatusOK,
      StatusInternalServerError]
    split_ifs <;> simp [writeHeader_write_code _ _ _ hrw]

/-- C4, amended: for the login, logout, profile-update and profile-refresh handlers, the
response code is 401 when credential extraction fails; when it succeeds and, for login and
logout, the request body is read without error, the code is 200 when the status of the
mapped outcome is ok and 500 for every other status; and the response never depends on the
status code the upstream response carried. -/
theorem endpoint_status_code (p : Package) (m : BstModels) (c : Client) (rw : ResponseWriter)
    (r : HttpRequest) (ep : Endpoint) (hrw : rw.wroteHeader = false) :
    (∀ err, p.TokenForRequest r = .error err → (ep.handler p m c rw r).1.Code = 401) ∧
    (∀ token body, p.TokenForRequest r = .ok token →
      (ep.readsBody = true → r.Body = .ok body) →
      (ep.handler p m c rw r).1.Code =
        if ((ep.operation m body).impl p c token).1.Status = "ok" then 200 else 500) ∧
    (∀ code : Request → Response → Nat,
      (ep.handler p m (c.recode code) rw r).1 = (ep.handler p m c rw r).1) := by
  refine ⟨?_, ?_, ?_⟩
  · intro err h
    cases ep <;>
      simp [Endpoint.handler, EagateLoginPost, EagateLogoutPost, DdrUpdatePatch,
        DdrRefreshPatch, h, ResponseWriter.Write, ResponseWriter.WriteHeader, hrw,
        StatusUnauthorized]
  · intro token body h hbody
    exact handler_code_of_outcome p m c rw r ep token body hrw h hbody
  · intro code
    cases ep
    · simp only [Endpoint.handler, EagateLoginPost]
      cases p.TokenForRequest r with
      | error err => rfl
      | ok token =>
        cases r.Body with
        | error err => rfl
        | ok body =>
          have h := recode_impl p m c code token (.login (m.decodeLoginRequest body))
          simp only [Operation.impl] at h
          simp only [h]
    · simp only [Endpoint.handler, EagateLogoutPost]
      cases p.TokenForRequest r with
      | error err => rfl
      | ok token =>
        cases r.Body with
        | error err => rfl
        | ok body =>
          have h := recode_impl p m c code token (.logout (m.decodeLogoutRequest body))
          simp only [Operation.impl] at h
          simp only [h]
    · simp only [Endpoint.handler, DdrUpdatePatch]
      cases p.TokenForRequest r with
      | error err => rfl
      | ok token =>
        have h := recode_impl p m c code token .profileUpdate
        simp only [Operation.impl] at h
        simp only [h]
    · simp only [Endpoint.handler, DdrRefreshPatch]
      cases p.TokenForRequest r with
      | error err => rfl
      | ok token =>
        have h := recode_impl p m c code token .profileRefresh
        simp only [Operation.impl] at h
        simp only [h]

/-- C4, amended, at the login endpoint: upstream answers with HTTP status 503 and a body
whose status is ok, and the gateway answers 200. -/
theorem endpoint_status_code_witness :
    ResponseWriter.fresh.wroteHeader = false ∧
    (Endpoint.eagateLogin.handler samplePackage sampleModels
      (answeringClient 503 (some (.object [("status", .str "ok"), ("message", .str "hi")])))
      .fresh sessionRequest).1.Code = 200 :=
  ⟨rfl, ((endpoint_status_code samplePackage sampleModels
      (answeringClient 503 (some (.object [("status", .str "ok"), ("message", .str "hi")])))
      .fresh sessionRequest .eagateLogin rfl).2.1 "tok" none rfl (fun _ => rfl)).trans
    (by decide)⟩

/-- Decoding the envelope `marshalStatus` writes gives the `Status` back, without error. -/
theorem unmarshalStatus_marshalled (status : Status) (init : Status) :
    unmarshalStatus
      (some (.object [("status", .str status.Status), ("message", .str status.Message)])) init
      = (status, false) := by
  have h1 : keyMatches "status" "status" = true := by decide
  have h2 : keyMatches "status" "message" = false := by decide
  have h3 : keyMatches "message" "message" = true := by decide
  simp [unmarshalStatus, storeStatusMember, storeString, h1, h2, h3]

/-- C5: a login request with a token and a readable body, whose upstream call succeeds with
a body that decodes to status ok and message `message`, is answered 200 with the envelope of
status ok and that message, and this envelope decodes back to exactly that outcome. -/
theorem login_round_trip (p : Package) (m : BstModels) (c : Client) (rw : ResponseWriter)
    (r : HttpRequest) (token : String) (body : JSONInput) (res : Response) (message : String)
    (hrw : rw.wroteHeader = false)
    (htoken : p.TokenForRequest r = .ok token)
    (hbody : r.Body = .ok body)
    (hres : (c.Do (EagateLoginPostRequest p m token (m.decodeLoginRequest body))).1 = .ok res)
    (hdec : (unmarshalStatus res.Body zeroStatus).1 = { Status := "ok", Message := message }) :
    (EagateLoginPost p m c rw r).1.Code = 200 ∧
    (EagateLoginPost p m c rw r).1.Body = rw.Body ++
      [Bytes.json (.object [("status", .str "ok"), ("message", .str message)])] ∧
    unmarshalStatus (some (.object [("status", .str "ok"), ("message", .str message)]))
      zeroStatus = ({ Status := "ok", Message := message }, false) := by
  have himpl : (EagateLoginPostImpl p m c token (m.decodeLoginRequest body)).1
      = { Status := "ok", Message := message } := by
    simp [EagateLoginPostImpl, hres, hdec]
  refine ⟨?_, ?_, unmarshalStatus_marshalled { Status := "ok", Message := message } _⟩
  · simp [EagateLoginPost, htoken, hbody, himpl, writeHeader_write_code _ _ _ hrw, StatusOK]
  · simp [EagateLoginPost, htoken, hbody, himpl, writeHeader_write_body _ _ _ hrw,
      marshalStatus]

/-- C5, at an upstream that accepts the login with the message welcome. -/
theorem login_round_trip_witness :
    (EagateLoginPost samplePackage sampleModels
      (answeringClient 200 (some (.object [("status", .str "ok"), ("message", .str "welcome")])))
      .fresh sessionRequest).1.Code = 200 ∧
    (EagateLoginPost samplePackage sampleModels
      (answeringClient 200 (some (.object [("status", .str "ok"), ("message", .str "welcome")])))
      .fresh sessionRequest).1.Body = ResponseWriter.fresh.Body ++
      [Bytes.json (.object [("status", .str "ok"), ("message", .str "welcome")])] ∧
    unmarshalStatus (some (.object [("status", .str "ok"), ("message", .str "welcome")]))
      zeroStatus = ({ Status := "ok", Message := "welcome" }, false) :=
  login_round_trip samplePackage sampleModels
    (answeringClient 200 (some (.object [("status", .str "ok"), ("message", .str "welcome")])))
    .fresh sessionRequest "tok" none
    { StatusCode := 200, Header := [],
      Body := some (.object [("status", .str "ok"), ("message", .str "welcome")]) }
    "welcome" rfl rfl rfl rfl (by decide)

/-- After the members of an object are stored, `Status` is what it was, or the string of a
member named status. -/
theorem foldl_storeStatusMember_Status (ms : List (String × JValue)) (acc : Status × Bool) :
    (ms.foldl storeStatusMember acc).1.Status = acc.1.Status ∨
    ∃ k, keyMatches "status" k = true ∧
      (k, JValue.str (ms.foldl storeStatusMember acc).1.Status) ∈ ms := by
  induction ms generalizing acc with
  | nil => simp
  | cons m rest ih =>
    rw [List.foldl_cons]
    rcases ih (storeStatusMember acc m) with h | ⟨k, hk, hmem⟩
    · rw [h]
      unfold storeStatusMember
      split_ifs with h1 h2
      · rcases storeString_fst m.2 acc.1.Status with h' | h'
        · left; simpa using h'
        · right
          refine ⟨m.1, h1, ?_⟩
          simp only [List.mem_cons]
          left
          exact Prod.ext rfl h'.symm
      · simp
      · simp
    · exact Or.inr ⟨k, hk, List.mem_cons_of_mem _ hmem⟩

/-- Decoding anything but a JSON object leaves a `Status` as it was. -/
theorem unmarshalStatus_of_not_object (body : JSONInput) (status : Status)
    (h : ∀ ms, body ≠ some (.object ms)) : (unmarshalStatus body status).1 = status := by
  unfold unmarshalStatus
  split <;> simp_all

/-- A zero `Status` decodes to the status ok only from an object with a member named status
that holds the string ok. -/
theorem unmarshalStatus_ok_member (body : JSONInput)
    (h : (unmarshalStatus body zeroStatus).1.Status = "ok") :
    ∃ ms k, body = some (.object ms) ∧ keyMatches "status" k = true ∧
      (k, JValue.str "ok") ∈ ms := by
  cases body with
  | none => simp [unmarshalStatus, zeroStatus] at h
  | some v =>
    cases v with
    | object ms =>
      simp only [unmarshalStatus] at h
      rcases foldl_storeStatusMember_Status ms (zeroStatus, false) with h' | ⟨k, hk, hmem⟩
      · rw [h] at h'
        simp [zeroStatus] at h'
      · rw [h] at hmem
        exact ⟨ms, k, rfl, hk, hmem⟩
    | _ => simp [unmarshalStatus, zeroStatus] at h

/-- C6, as stated, fails: the listing of identities returns status ok for an upstream body
that is not JSON, and the logout operation returns status ok for an upstream body whose
`message` member is a number; in both cases `json.Unmarshal` returned an error. -/
theorem status_ok_without_decoded_body :
    ((Operation.listIdentities : Operation sampleModels).impl samplePackage
      (answeringClient 200 none) "tok").1 = { Status := "ok", Message := "found 0 users" } ∧
    (Operation.listIdentities : Operation sampleModels).decodes none = false ∧
    ((Operation.logout "u" : Operation sampleModels).impl samplePackage
      (answeringClient 200
        (some (.object [("status", .str "ok"), ("message", .number "5")]))) "tok").1
      = { Status := "ok", Message := "" } ∧
    (Operation.logout "u" : Operation sampleModels).decodes
      (some (.object [("status", .str "ok"), ("message", .number "5")])) = false := by
  refine ⟨?_, ?_, ?_, ?_⟩ <;> decide

/-- C6, amended: if the status an operation returns is ok, then its upstream call succeeded
at transport level; and for the four operations that decode the body into their status, the
body was a JSON object with a member named status whose value is the string ok. (That
`json.Unmarshal` returned no error does not follow.) -/
theorem status_ok_implies_transport_ok (p : Package) (m : BstModels) (c : Client)
    (token : String) (op : Operation m)
    (h : (op.impl p c token).1.Status = "ok") :
    ∃ res, (c.Do (op.request p token)).1 = .ok res ∧
      (op.decodesStatus = true →
        ∃ ms k, res.Body = some (.object ms) ∧ keyMatches "status" k = true ∧
          (k, JValue.str "ok") ∈ ms) := by
  cases op with
  | listIdentities =>
    simp only [Operation.impl, EagateLoginGetImpl] at h
    simp only [Operation.request, Operation.decodesStatus]
    cases hd : (c.Do (EagateLoginGetRequest p token)).1 with
    | error e => simp [hd] at h
    | ok res => exact ⟨res, rfl, by simp⟩
  | login lr =>
    simp only [Operation.impl, EagateLoginPostImpl] at h
    simp only [Operation.request, Operation.decodesStatus]
    cases hd : (c.Do (EagateLoginPostRequest p m token lr)).1 with
    | error e => simp [hd] at h
    | ok res =>
      simp only [hd] at h
      exact ⟨res, rfl, fun _ => unmarshalStatus_ok_member _ h⟩
  | logout lo =>
    simp only [Operation.impl, EagateLogoutPostImpl] at h
    simp only [Operation.request, Operation.decodesStatus]
    cases hd : (c.Do (EagateLogoutPostRequest p m token lo)).1 with
    | error e => simp [hd] at h
    | ok res =>
      simp only [hd] at h
      exact ⟨res, rfl, fun _ => unmarshalStatus_ok_member _ h⟩
  | profileUpdate =>
    simp only [Operation.impl, DdrUpdatePatchImpl] at h
    simp only [Operation.request, Operation.decodesStatus]
    cases hd : (c.Do (DdrUpdatePatchRequest p token)).1 with
    | error e => simp [hd] at h
    | ok res =>
      simp only [hd] at h
      exact ⟨res, rfl, fun _ => unmarshalStatus_ok_member _ h⟩
  | profileRefresh =>
    simp only [Operation.impl, DdrRefreshPatchImpl] at h
    simp only [Operation.request, Operation.decodesStatus]
    cases hd : (c.Do (DdrRefreshPatchRequest p token)).1 with
    | error e => simp [hd] at h
    | ok res =>
      simp only [hd] at h
      exact ⟨res, rfl, fun _ => unmarshalStatus_ok_member _ h⟩

/-- C6, amended, at the profile update against an upstream that answers status ok. -/
theorem status_ok_implies_transport_ok_witness :
    ((Operation.profileUpdate : Operation sampleModels).impl samplePackage
      (answeringClient 200 (some (.object [("status", .str "ok")]))) "tok").1.Status = "ok" ∧
    ∃ res, ((answeringClient 200 (some (.object [("status", .str "ok")]))).Do
        ((Operation.profileUpdate : Operation sampleModels).request samplePackage "tok")).1
        = .ok res ∧
      ((Operation.profileUpdate : Operation sampleModels).decodesStatus = true →
        ∃ ms k, res.Body = some (.object ms) ∧ keyMatches "status" k = true ∧
          (k, JValue.str "ok") ∈ ms) :=
  ⟨by decide, status_ok_implies_transport_ok samplePackage sampleModels
    (answeringClient 200 (some (.object [("status", .str "ok")]))) "tok" .profileUpdate
    (by decide)⟩

/-- C7, as stated, fails: the upstream answers the login with a JSON object whose `status`
member is the string ok and whose `message` member is a number. Decoding returns an error,
yet the status of the outcome is ok, not empty, and the handler answers 200. -/
theorem login_decode_error_answers_200 :
    (unmarshalStatus (some (.object [("status", .str "ok"), ("message", .number "5")]))
      zeroStatus).2 = true ∧
    (EagateLoginPostImpl samplePackage sampleModels
      (answeringClient 200 (some (.object [("status", .str "ok"), ("message", .number "5")])))
      "tok" ("", "")).1.Status = "ok" ∧
    (EagateLoginPost samplePackage sampleModels
      (answeringClient 200 (some (.object [("status", .str "ok"), ("message", .number "5")])))
      .fresh sessionRequest).1.Code = 200 := by
  refine ⟨?_, ?_, ?_⟩ <;> decide

/-- A zero `Status` keeps the empty status when the body has no member named status that
holds a string. -/
theorem unmarshalStatus_status_empty (body : JSONInput)
    (hno : ∀ ms k s, body = some (.object ms) → keyMatches "status" k = true →
      (k, JValue.str s) ∉ ms) :
    (unmarshalStatus body zeroStatus).1.Status = "" := by
  cases body with
  | none => simp [unmarshalStatus, zeroStatus]
  | some v =>
    cases v with
    | object ms =>
      simp only [unmarshalStatus]
      rcases foldl_storeStatusMember_Status ms (zeroStatus, false) with h | ⟨k, hk, hmem⟩
      · rw [h]
        rfl
      · exact absurd hmem (hno ms k _ rfl hk)
    | _ => simp [unmarshalStatus, zeroStatus]

/-- The outcome of the operation of an endpoint whose upstream call succeeded is what
`json.Unmarshal` made of the body, starting from the zero `Status`. -/
theorem endpoint_impl_of_response (p : Package) (m : BstModels) (c : Client) (ep : Endpoint)
    (token : String) (body : JSONInput) (res : Response)
    (hres : (c.Do ((ep.operation m body).request p token)).1 = .ok res) :
    ((ep.operation m body).impl p c token).1 = (unmarshalStatus res.Body zeroStatus).1 := by
  cases ep <;>
    simp_all [Endpoint.operation, Operation.impl, Operation.request, EagateLoginPostImpl,
      EagateLogoutPostImpl, DdrUpdatePatchImpl, DdrRefreshPatchImpl]

/-- C7, amended: for the login, logout, profile-update and profile-refresh operations, when
the upstream call succeeds at transport level, the status of the outcome the `*Impl`
function returns is the empty string unless the body is a JSON object with a member named
status that holds a string (which is stored even when decoding fails on another member), and
the handler answers 500 unless the body is a JSON object with a member named status that
holds the string ok; when the body is not a JSON object at all, the outcome is the zero
`Status`. -/
theorem undecodable_body_answers_500 (p : Package) (m : BstModels) (c : Client)
    (rw : ResponseWriter) (r : HttpRequest) (ep : Endpoint) (token : String) (body : JSONInput)
    (res : Response)
    (hrw : rw.wroteHeader = false)
    (htoken : p.TokenForRequest r = .ok token)
    (hbody : ep.readsBody = true → r.Body = .ok body)
    (hres : (c.Do ((ep.operation m body).request p token)).1 = .ok res) :
    ((∀ ms k s, res.Body = some (.object ms) → keyMatches "status" k = true →
        (k, JValue.str s) ∉ ms) →
      ((ep.operation m body).impl p c token).1.Status = "") ∧
    ((∀ ms k, res.Body = some (.object ms) → keyMatches "status" k = true →
        (k, JValue.str "ok") ∉ ms) →
      (ep.handler p m c rw r).1.Code = 500) ∧
    ((∀ ms, res.Body ≠ some (.object ms)) →
      ((ep.operation m body).impl p c token).1 = { Status := "", Message := "" }) := by
  have himpl := endpoint_impl_of_response p m c ep token body res hres
  refine ⟨?_, ?_, ?_⟩
  · intro hno
    rw [himpl]
    exact unmarshalStatus_status_empty res.Body hno
  · intro hno
    have hne : ¬ ((ep.operation m body).impl p c token).1.Status = "ok" := by
      intro hok
      rw [himpl] at hok
      obtain ⟨ms, k, hb, hk, hmem⟩ := unmarshalStatus_ok_member res.Body hok
      exact hno ms k hb hk hmem
    rw [handler_code_of_outcome p m c rw r ep token body hrw htoken hbody, if_neg hne]
  · intro hnot
    rw [himpl, unmarshalStatus_of_not_object res.Body zeroStatus hnot]
    rfl

/-- C7, amended, at the login endpoint against an upstream whose body holds a number as
status, so that decoding fails: the status of the outcome is empty and the handler answers
500. -/
theorem undecodable_body_answers_500_witness :
    (unmarshalStatus (some (.object [("status", .number "500"), ("message", .str "m")]))
      zeroStatus).2 = true ∧
    ((Endpoint.eagateLogin.operation sampleModels none).impl samplePackage
      (answeringClient 200 (some (.object [("status", .number "500"), ("message", .str "m")])))
      "tok").1.Status = "" ∧
    (Endpoint.eagateLogin.handler samplePackage sampleModels
      (answeringClient 200 (some (.object [("status", .number "500"), ("message", .str "m")])))
      .fresh sessionRequest).1.Code = 500 := by
  have hmsg : keyMatches "status" "message" = false := by decide
  have h := undecodable_body_answers_500 samplePackage sampleModels
    (answeringClient 200 (some (.object [("status", .number "500"), ("message", .str "m")])))
    .fresh sessionRequest .eagateLogin "tok" none
    { StatusCode := 200, Header := [],
      Body := some (.object [("status", .number "500"), ("message", .str "m")]) }
    rfl rfl (fun _ => rfl) rfl
  refine ⟨by decide, h.1 ?_, h.2.1 ?_⟩
  · intro ms k s hb hk hmem
    simp only [Option.some.injEq, JValue.object.injEq] at hb
    subst hb
    simp only [List.mem_cons, Prod.mk.injEq, List.not_mem_nil, or_false] at hmem
    rcases hmem with ⟨_, hv⟩ | ⟨hkey, _⟩
    · cases hv
    · rw [hkey, hmsg] at hk
      cases hk
  · intro ms k hb hk hmem
    simp only [Option.some.injEq, JValue.object.injEq] at hb
    subst hb
    simp only [List.mem_cons, Prod.mk.injEq, List.not_mem_nil, or_false] at hmem
    rcases hmem with ⟨_, hv⟩ | ⟨hkey, hv⟩
    · cases hv
    · rw [hkey, hmsg] at hk
      cases hk

/-- Without operands the format is copied. -/
theorem sprintfChars_nil_args (l : List Char) : sprintfChars l [] = l := by
  induction l with
  | nil => rfl
  | cons c rest ih => simp [sprintfChars, ih]

/-- A character other than the percent sign is copied. -/
theorem sprintfChars_cons_of_ne (c : Char) (rest : List Char) (args : List FmtArg)
    (h : c ≠ '%') : sprintfChars (c :: rest) args = c :: sprintfChars rest args := by
  conv_lhs => unfold sprintfChars
  split <;> simp_all

/-- A stretch of the format without a percent sign is copied. -/
theorem sprintfChars_lit (lit rest : List Char) (args : List FmtArg) (h : '%' ∉ lit) :
    sprintfChars (lit ++ rest) args = lit ++ sprintfChars rest args := by
  induction lit with
  | nil => rfl
  | cons c l ih =>
    have hc : c ≠ '%' := fun e => h (by simp [e])
    have hl : '%' ∉ l := fun e => h (by simp [e])
    simp [sprintfChars_cons_of_ne _ _ _ hc, ih hl]

/-- `Sprintf` copies a leading stretch of the format that has no percent sign. -/
theorem Sprintf_lit (lit f : String) (args : List FmtArg) (h : '%' ∉ lit.data) :
    Sprintf (lit ++ f) args = lit ++ Sprintf f args := by
  apply String.ext
  simp [Sprintf, sprintfChars_lit _ _ _ h]

/-- `Sprintf` on a leading `%s` writes the string operand. -/
theorem Sprintf_s (f v : String) (args : List FmtArg) :
    Sprintf ("%s" ++ f) (.s v :: args) = v ++ Sprintf f args := by
  apply String.ext
  simp [Sprintf, sprintfChars]

/-- `Sprintf` on a leading `%d` writes the integer operand in decimal. -/
theorem Sprintf_d (f : String) (v : Int) (args : List FmtArg) :
    Sprintf ("%d" ++ f) (.d v :: args) = toString v ++ Sprintf f args := by
  apply String.ext
  simp [Sprintf, sprintfChars]

/-- `Sprintf` without operands gives the format. -/
theorem Sprintf_nil (f : String) : Sprintf f [] = f := by
  apply String.ext
  simp [Sprintf, sprintfChars_nil_args]

/-- `String.join` of a list with a head. -/
theorem join_cons (a : String) (l : List String) : String.join (a :: l) = a ++ String.join l := by
  apply String.ext
  simp [String.data_join]

/-- One pass of the loop of `DdrStatsGetImpl` appends the row block of the record. -/
theorem sprintf_statsRowFormat (acc : String) (stat : DdrStatisticsTable) :
    Sprintf statsRowFormat [.s acc, .d stat.Level, .s stat.Title, .s stat.Artist, .s stat.Mode,
      .s stat.Difficulty, .s stat.Lamp, .s stat.Rank, .d stat.Score, .d stat.PlayCount,
      .d stat.ClearCount, .d stat.MaxCombo] = acc ++ statsRowBlock stat := by
  have hf : statsRowFormat = "%s" ++ ("\n            <tr>\n                <td>" ++ ("%d" ++
    ("</td>\n                <td>" ++ ("%s" ++ ("</td>\n                <td>" ++ ("%s" ++
    ("</td>\n                <td>" ++ ("%s" ++ ("</td>\n                <td>" ++ ("%s" ++
    ("</td>\n                <td>" ++ ("%s" ++ ("</td>\n                <td>" ++ ("%s" ++
    ("</td>\n                <td>" ++ ("%d" ++ ("</td>\n                <td>" ++ ("%d" ++
    ("</td>\n                <td>" ++ ("%d" ++ ("</td>\n                <td>" ++ ("%d" ++
    "</td>\n            </tr>")))))))))))))))))))))) := by
    simp [statsRowFormat]
  rw [hf]
  repeat (first | rw [Sprintf_s] | rw [Sprintf_d] | rw [Sprintf_lit _ _ _ (by decide)])
  rw [Sprintf_nil]
  have h1 : "\n            <tr>\n                <td>"
      = "\n            <tr>" ++ "\n                <td>" := by decide
  have h2 : "</td>\n                <td>" = "</td>" ++ "\n                <td>" := by decide
  have h3 : "</td>\n            </tr>" = "</td>" ++ "\n            </tr>" := by decide
  rw [h1, h2, h3]
  simp only [statsRowBlock, statsRowCells, String.join, List.map, List.foldl,
    String.append_assoc, String.empty_append]

/-- The last `Sprintf` of `DdrStatsGetImpl` appends the closing markup. -/
theorem sprintf_statsTableClosingFormat (acc : String) :
    Sprintf statsTableClosingFormat [.s acc] = acc ++ statsTableClosing := by
  have hf : statsTableClosingFormat = "%s" ++ statsTableClosing := by
    simp [statsTableClosingFormat, statsTableClosing]
  rw [hf, Sprintf_s, Sprintf_nil]

/-- The loop of `DdrStatsGetImpl` appends the row blocks of the records in their order. -/
theorem foldl_statsRow (rows : List DdrStatisticsTable) (acc : String) :
    rows.foldl
      (fun stats stat =>
        Sprintf statsRowFormat
          [.s stats, .d stat.Level, .s stat.Title, .s stat.Artist, .s stat.Mode,
            .s stat.Difficulty, .s stat.Lamp, .s stat.Rank, .d stat.Score, .d stat.PlayCount,
            .d stat.ClearCount, .d stat.MaxCombo])
      acc = acc ++ String.join (rows.map statsRowBlock) := by
  induction rows generalizing acc with
  | nil => simp [String.join]
  | cons stat rest ih =>
    rw [List.foldl_cons, ih, sprintf_statsRowFormat, List.map_cons, join_cons,
      String.append_assoc]

/-- The rendering is the opening markup, the row blocks, and the closing markup. -/
theorem renderStats_eq (rows : Slice DdrStatisticsTable) :
    renderStats rows
      = statsTableOpening ++ String.join ((Slice.elems rows).map statsRowBlock)
        ++ statsTableClosing := by
  simp only [renderStats, foldl_statsRow, sprintf_statsTableClosingFormat]

/-- C8: when the upstream call succeeds and the body decodes without error into the play
records `rows` (the nil slice and the empty slice included), `DdrStatsGetImpl` renders the
fixed opening markup, then one row block per record, in the order of the records, then the
fixed closing markup; the block of a record holds its level, title, artist, mode,
difficulty, lamp, rank, score, play count, clear count and max combo, one cell each, in
that order. -/
theorem stats_rendering (p : Package) (m : BstModels) (c : Client) (token : String)
    (res : Response) (rows : Slice DdrStatisticsTable)
    (hres : (c.Do (DdrStatsGetRequest p token)).1 = .ok res)
    (hdec : unmarshalSlice m.decodeDdrStatisticsTable res.Body (some []) = (rows, false)) :
    (DdrStatsGetImpl p m c token).1
      = statsTableOpening ++ String.join ((Slice.elems rows).map statsRowBlock)
        ++ statsTableClosing ∧
    ((Slice.elems rows).map statsRowBlock).length = Slice.len rows ∧
    (∀ i : Nat, ((Slice.elems rows).map statsRowBlock)[i]?
      = ((Slice.elems rows)[i]?).map statsRowBlock) ∧
    (∀ stat, statsRowCells stat
      = [toString stat.Level, stat.Title, stat.Artist, stat.Mode, stat.Difficulty, stat.Lamp,
          stat.Rank, toString stat.Score, toString stat.PlayCount, toString stat.ClearCount,
          toString stat.MaxCombo]) := by
  refine ⟨?_, by simp [Slice.len], fun i => by simp, fun _ => rfl⟩
  simp [DdrStatsGetImpl, hres, hdec, renderStats_eq]

/-- C8, at an upstream that answers with one play record, and at one that answers with an
empty array. -/
theorem stats_rendering_witness :
    (DdrStatsGetImpl samplePackage sampleModels
      (answeringClient 200 (some (.array [.object [("title", .str "PARANOiA")]]))) "tok").1
      = statsTableOpening
        ++ String.join ([({ zeroRecord with Title := "PARANOiA" } : DdrStatisticsTable)].map
            statsRowBlock)
        ++ statsTableClosing ∧
    (DdrStatsGetImpl samplePackage sampleModels (answeringClient 200 (some (.array []))) "tok").1
      = statsTableOpening ++ String.join (([] : List DdrStatisticsTable).map statsRowBlock)
        ++ statsTableClosing :=
  ⟨(stats_rendering samplePackage sampleModels
      (answeringClient 200 (some (.array [.object [("title", .str "PARANOiA")]]))) "tok"
      { StatusCode := 200, Header := [],
        Body := some (.array [.object [("title", .str "PARANOiA")]]) }
      (some [{ zeroRecord with Title := "PARANOiA" }])
      rfl rfl).1,
   (stats_rendering samplePackage sampleModels (answeringClient 200 (some (.array []))) "tok"
      { StatusCode := 200, Header := [], Body := some (.array []) } (some []) rfl rfl).1⟩

/-- C9: if the upstream call fails at transport level, or succeeds with a body that does not
decode into a list of play records, `DdrStatsGetImpl` returns exactly the fixed error
fragment; and for every request with a token `DdrStatsGet` answers 200 with what
`DdrStatsGetImpl` returned, whatever the upstream did. -/
theorem stats_failure_mapping (p : Package) (m : BstModels) (c : Client) (token : String) :
    (∀ e, (c.Do (DdrStatsGetRequest p token)).1 = .error e →
      (DdrStatsGetImpl p m c token).1 = "<a>API Error</a>") ∧
    (∀ res, (c.Do (DdrStatsGetRequest p token)).1 = .ok res →
      (unmarshalSlice m.decodeDdrStatisticsTable res.Body (some [])).2 = true →
      (DdrStatsGetImpl p m c token).1 = "<a>API Error</a>") ∧
    (∀ (rw : ResponseWriter) (r : HttpRequest), rw.wroteHeader = false →
      p.TokenForRequest r = .ok token →
      (DdrStatsGet p m c rw r).1.Code = 200 ∧
      (DdrStatsGet p m c rw r).1.Body = rw.Body ++ [.text (DdrStatsGetImpl p m c token).1]) := by
  refine ⟨?_, ?_, ?_⟩
  · intro e h
    simp [DdrStatsGetImpl, h]
  · intro res h herr
    simp [DdrStatsGetImpl, h, herr]
  · intro rw r hrw h
    simp [DdrStatsGet, h, ResponseWriter.Write, ResponseWriter.WriteHeader, hrw, StatusOK]

/-- C9, at an unreachable upstream, at an upstream whose body is a JSON object, and at the
handler in front of the unreachable upstream. -/
theorem stats_failure_mapping_witness :
    (DdrStatsGetImpl samplePackage sampleModels unreachableClient "tok").1
      = "<a>API Error</a>" ∧
    (DdrStatsGetImpl samplePackage sampleModels (answeringClient 200 (some (.object []))) "tok").1
      = "<a>API Error</a>" ∧
    (DdrStatsGet samplePackage sampleModels unreachableClient .fresh sessionRequest).1.Code
      = 200 ∧
    (DdrStatsGet samplePackage sampleModels unreachableClient .fresh sessionRequest).1.Body
      = ResponseWriter.fresh.Body ++
        [.text (DdrStatsGetImpl samplePackage sampleModels unreachableClient "tok").1] :=
  ⟨(stats_failure_mapping samplePackage sampleModels unreachableClient "tok").1
      "dial tcp: i/o timeout" rfl,
   (stats_failure_mapping samplePackage sampleModels (answeringClient 200 (some (.object [])))
      "tok").2.1 { StatusCode := 200, Header := [], Body := some (.object []) } rfl rfl,
   ((stats_failure_mapping samplePackage sampleModels unreachableClient "tok").2.2
      .fresh sessionRequest rfl rfl).1,
   ((stats_failure_mapping samplePackage sampleModels unreachableClient "tok").2.2
      .fresh sessionRequest rfl rfl).2⟩

/-- A URL string without a question mark has an empty query. -/
theorem rawQuery_of_no_question_mark (s : String) (h : '?' ∉ s.data) : rawQuery s = "" := by
  have hd : (s.data.takeWhile (· ≠ '#')).dropWhile (· ≠ '?') = [] := by
    rw [List.dropWhile_eq_nil_iff]
    intro x hx
    have hx2 : x ∈ s.data := List.takeWhile_subset _ hx
    have hne : x ≠ '?' := fun e => h (e ▸ hx2)
    simpa using hne
  unfold rawQuery
  rw [hd]
  rfl

/-- Distinct tokens give distinct bearer values. -/
theorem bearer_injective (a b : String) (h : "Bearer " ++ a = "Bearer " ++ b) : a = b := by
  have hd := congrArg String.data h
  simp only [String.data_append] at hd
  exact String.ext (List.append_cancel_left hd)

/-- Without a jar, `Do` records the request as it was built. -/
theorem Do_snd_sent (c : Client) (req : Request) (hjar : c.Jar = none) :
    (c.Do req).2.sent = c.sent ++ [req] := by
  simp [Client.Do, Client.outgoing, hjar]

/-- The client state `EagateLoginGetImpl` leaves is that of its single `Do`. -/
theorem EagateLoginGetImpl_snd (p : Package) (m : BstModels) (c : Client) (token : String) :
    (EagateLoginGetImpl p m c token).2 = (c.Do (EagateLoginGetRequest p token)).2 := by
  simp only [EagateLoginGetImpl]
  split <;> rfl

/-- The client state `EagateLoginPostImpl` leaves is that of its single `Do`. -/
theorem EagateLoginPostImpl_snd (p : Package) (m : BstModels) (c : Client) (token : String)
    (lr : m.LoginRequest) :
    (EagateLoginPostImpl p m c token lr).2 = (c.Do (EagateLoginPostRequest p m token lr)).2 := by
  simp only [EagateLoginPostImpl]
  split <;> rfl

/-- The client state `EagateLogoutPostImpl` leaves is that of its single `Do`. -/
theorem EagateLogoutPostImpl_snd (p : Package) (m : BstModels) (c : Client) (token : String)
    (lo : m.LogoutRequest) :
    (EagateLogoutPostImpl p m c token lo).2
      = (c.Do (EagateLogoutPostRequest p m token lo)).2 := by
  simp only [EagateLogoutPostImpl]
  split <;> rfl

/-- The client state `DdrUpdatePatchImpl` leaves is that of its single `Do`. -/
theorem DdrUpdatePatchImpl_snd (p : Package) (c : Client) (token : String) :
    (DdrUpdatePatchImpl p c token).2 = (c.Do (DdrUpdatePatchRequest p token)).2 := by
  simp only [DdrUpdatePatchImpl]
  split <;> rfl

/-- The client state `DdrRefreshPatchImpl` leaves is that of its single `Do`. -/
theorem DdrRefreshPatchImpl_snd (p : Package) (c : Client) (token : String) :
    (DdrRefreshPatchImpl p c token).2 = (c.Do (DdrRefreshPatchRequest p token)).2 := by
  simp only [DdrRefreshPatchImpl]
  split <;> rfl

/-- The client state `DdrStatsGetImpl` leaves is that of its single `Do`. -/
theorem DdrStatsGetImpl_snd (p : Package) (m : BstModels) (c : Client) (token : String) :
    (DdrStatsGetImpl p m c token).2 = (c.Do (DdrStatsGetRequest p token)).2 := by
  simp only [DdrStatsGetImpl]
  split
  · rfl
  · split <;> rfl

/-- The client state `StatusGetImpl` leaves is that of its single `Do`. -/
theorem StatusGetImpl_snd (p : Package) (c : Client) :
    (StatusGetImpl p c).2 = (c.Do (StatusGetRequest p)).2 := by
  simp only [StatusGetImpl]
  split
  · rfl
  · split <;> rfl

/-- C10: with the client as `InitClient` sets it up (no cookie jar), each of the six
authenticated operations sends exactly one request, the one it built for its token. That
request has a single header, Authorization, with the single value Bearer and the token; it
has no Cookie header; its URL has an empty query (the configured host and base path holding
no question mark) and is the same for every token; and the bearer value of any other token
is not among its Authorization values. The request of the status check has no Authorization
header. -/
theorem outbound_bearer_token (p : Package) (m : BstModels) (c : Client) (token : String)
    (loginRequest : m.LoginRequest) (logoutRequest : m.LogoutRequest)
    (hjar : c.Jar = none)
    (hurl : '?' ∉ p.bstApi.data ∧ '?' ∉ p.bstApiBase.data) :
    (authenticatedCalls p m c token loginRequest logoutRequest).map (fun c2 => c2.sent)
      = (authenticatedRequests p m token loginRequest logoutRequest).map
          (fun req => c.sent ++ [req]) ∧
    (∀ c2 ∈ authenticatedCalls p m c token loginRequest logoutRequest, c2.Jar = none) ∧
    (∀ req ∈ authenticatedRequests p m token loginRequest logoutRequest,
      req.Header = [("Authorization", ["Bearer " ++ token])] ∧
      Header.Values req.Header "Authorization" = ["Bearer " ++ token] ∧
      Header.Values req.Header "Cookie" = [] ∧
      rawQuery req.URL = "" ∧
      ∀ other, other ≠ token →
        "Bearer " ++ other ∉ Header.Values req.Header "Authorization") ∧
    (∀ other,
      (authenticatedRequests p m other loginRequest logoutRequest).map (fun req => req.URL)
        = (authenticatedRequests p m token loginRequest logoutRequest).map
            (fun req => req.URL)) ∧
    (StatusGetImpl p c).2.sent = c.sent ++ [StatusGetRequest p] ∧
    Header.Values (StatusGetRequest p).Header "Authorization" = [] := by
  have hq : ∀ path : String, '?' ∉ path.data →
      rawQuery ("https://" ++ p.bstApi ++ p.bstApiBase ++ path) = "" := by
    intro path hpath
    apply rawQuery_of_no_question_mark
    simp only [String.data_append, List.mem_append, not_or]
    exact ⟨⟨⟨by decide, hurl.1⟩, hurl.2⟩, hpath⟩
  have hv : Header.Values (Header.Add [] "Authorization" ("Bearer " ++ token)) "Authorization"
      = ["Bearer " ++ token] := by
    simp [Header.Add, Header.Values]
  have hc : Header.Values (Header.Add [] "Authorization" ("Bearer " ++ token)) "Cookie"
      = [] := by
    have : ¬ ("Authorization" = "Cookie") := by decide
    simp [Header.Add, Header.Values, this]
  have hother : ∀ other, other ≠ token → "Bearer " ++ other ∉
      Header.Values (Header.Add [] "Authorization" ("Bearer " ++ token)) "Authorization" := by
    intro other hne hmem
    rw [hv] at hmem
    simp only [List.mem_singleton] at hmem
    exact hne (bearer_injective _ _ hmem)
  refine ⟨?_, ?_, ?_, ?_, ?_, ?_⟩
  · simp [authenticatedCalls, authenticatedRequests, EagateLoginGetImpl_snd,
      EagateLoginPostImpl_snd, EagateLogoutPostImpl_snd, DdrUpdatePatchImpl_snd,
      DdrRefreshPatchImpl_snd, DdrStatsGetImpl_snd, Do_snd_sent _ _ hjar]
  · intro c2 hc2
    simp only [authenticatedCalls, EagateLoginGetImpl_snd,
      EagateLoginPostImpl_snd, EagateLogoutPostImpl_snd, DdrUpdatePatchImpl_snd,
      DdrRefreshPatchImpl_snd, DdrStatsGetImpl_snd, List.mem_cons, List.mem_singleton,
      List.not_mem_nil, or_false] at hc2
    rcases hc2 with rfl | rfl | rfl | rfl | rfl | rfl <;> exact hjar
  · intro req hreq
    simp only [authenticatedRequests, List.mem_cons, List.mem_singleton, List.not_mem_nil,
      or_false] at hreq
    rcases hreq with rfl | rfl | rfl | rfl | rfl | rfl
    · exact ⟨rfl, hv, hc, hq "user/login" (by decide), hother⟩
    · exact ⟨rfl, hv, hc, hq "user/login" (by decide), hother⟩
    · exact ⟨rfl, hv, hc, hq "user/logout" (by decide), hother⟩
    · exact ⟨rfl, hv, hc, hq "ddr/profile/update" (by decide), hother⟩
    · exact ⟨rfl, hv, hc, hq "ddr/profile/refresh" (by decide), hother⟩
    · exact ⟨rfl, hv, hc, hq "ddr/songs/scores/extended" (by decide), hother⟩
  · intro other
    rfl
  · rw [StatusGetImpl_snd, Do_snd_sent _ _ hjar]
  · rfl

/-- C10, at the client `InitClient` makes, for the token tok. -/
theorem outbound_bearer_token_witness :
    unreachableClient.Jar = none ∧
    ('?' ∉ samplePackage.bstApi.data ∧ '?' ∉ samplePackage.bstApiBase.data) ∧
    (DdrUpdatePatchImpl samplePackage unreachableClient "tok").2.sent
      = [{ Method := "PATCH", URL := "https://bst.example.org/api/ddr/profile/update",
            Header := [("Authorization", ["Bearer tok"])], Body := none }] ∧
    (StatusGetImpl samplePackage unreachableClient).2.sent
      = [{ Method := "GET", URL := "https://bst.example.org/api/status", Header := [],
            Body := none }] :=
  ⟨rfl, by decide,
   by
    have h := (outbound_bearer_token samplePackage sampleModels unreachableClient "tok"
      ("u", "pw") "u" rfl (by decide)).1
    simp only [authenticatedCalls, authenticatedRequests, List.map_cons, List.map_nil,
      List.cons.injEq] at h
    rw [h.2.2.2.1]
    rfl,
   by
    rw [(outbound_bearer_token samplePackage sampleModels unreachableClient "tok"
      ("u", "pw") "u" rfl (by decide)).2.2.2.2.1]
    rfl⟩

/-- The body `WhoAmI` writes when the session holds a token key and a nickname. -/
theorem WhoAmI_body_of_nickname (u : Utilities) (rw : ResponseWriter) (r : HttpRequest)
    (hrw : rw.wroteHeader = false) (session : Session) (profileMap : List (String × Value))
    (nickname : String)
    (hs : u.StoreGet r "auth-session" = .ok (some session))
    (hhas : mapHas session.Values "access_token" = true)
    (hprof : mapIndex session.Values "profile" = .stringMap profileMap)
    (hnick : mapIndex profileMap "nickname" = .str nickname) :
    (WhoAmI u rw r).Body = rw.Body ++ [.text nickname] := by
  simp only [WhoAmI, hs, hhas, hprof, hnick, if_true]
  exact writeHeader_write_body _ _ _ hrw

/-- The body `WhoAmI` writes in every other case is empty. -/
theorem WhoAmI_body_of_no_nickname (u : Utilities) (rw : ResponseWriter) (r : HttpRequest)
    (hrw : rw.wroteHeader = false)
    (hno : ¬ ∃ session profileMap nickname,
      u.StoreGet r "auth-session" = .ok (some session) ∧
      mapHas session.Values "access_token" = true ∧
      mapIndex session.Values "profile" = .stringMap profileMap ∧
      mapIndex profileMap "nickname" = .str nickname) :
    (WhoAmI u rw r).Body = rw.Body ++ [.text ""] := by
  unfold WhoAmI
  split
  · exact writeHeader_write_body _ _ _ hrw
  · rename_i session hget
    split
    · exact writeHeader_write_body _ _ _ hrw
    · rename_i s
      split
      · rename_i hhas
        split
        · rename_i profileMap hprof
          split
          · rename_i nickname hnick
            exact absurd ⟨s, profileMap, nickname, hget, hhas, hprof, hnick⟩ hno
          · exact writeHeader_write_body _ _ _ hrw
        · exact writeHeader_write_body _ _ _ hrw
      · exact writeHeader_write_body _ _ _ hrw

/-- C11: `WhoAmI` always answers 200. Its body is the nickname when the session lookup
succeeds, the session is not nil, it has the key access_token, its profile is a map with
string keys and the nickname entry of that map is a string; in every other case the body is
empty. The access token does not get into the body: the value stored under access_token is
never read, so the answer is the same for two sessions that agree on their profile and on
whether the key access_token is there, and a text in the body that is not empty is the
nickname of the profile. -/
theorem whoami_reply (u : Utilities) (rw : ResponseWriter) (r : HttpRequest)
    (hrw : rw.wroteHeader = false) :
    (WhoAmI u rw r).Code = 200 ∧
    (∀ session profileMap nickname,
      u.StoreGet r "auth-session" = .ok (some session) →
      mapHas session.Values "access_token" = true →
      mapIndex session.Values "profile" = .stringMap profileMap →
      mapIndex profileMap "nickname" = .str nickname →
      (WhoAmI u rw r).Body = rw.Body ++ [.text nickname]) ∧
    ((¬ ∃ session profileMap nickname,
        u.StoreGet r "auth-session" = .ok (some session) ∧
        mapHas session.Values "access_token" = true ∧
        mapIndex session.Values "profile" = .stringMap profileMap ∧
        mapIndex profileMap "nickname" = .str nickname) →
      (WhoAmI u rw r).Body = rw.Body ++ [.text ""]) ∧
    (∀ (u2 : Utilities) (s1 s2 : Session),
      u.StoreGet r "auth-session" = .ok (some s1) →
      u2.StoreGet r "auth-session" = .ok (some s2) →
      mapHas s1.Values "access_token" = mapHas s2.Values "access_token" →
      mapIndex s1.Values "profile" = mapIndex s2.Values "profile" →
      WhoAmI u2 rw r = WhoAmI u rw r) ∧
    (∀ text, (WhoAmI u rw r).Body = rw.Body ++ [.text text] → text ≠ "" →
      ∃ session profileMap,
        u.StoreGet r "auth-session" = .ok (some session) ∧
        mapIndex session.Values "profile" = .stringMap profileMap ∧
        mapIndex profileMap "nickname" = .str text) := by
  refine ⟨?_, ?_, ?_, ?_, ?_⟩
  · unfold WhoAmI
    split
    · exact writeHeader_write_code _ _ _ hrw
    · split
      · exact writeHeader_write_code _ _ _ hrw
      · split
        · split
          · split
            · exact writeHeader_write_code _ _ _ hrw
            · exact writeHeader_write_code _ _ _ hrw
          · exact writeHeader_write_code _ _ _ hrw
        · exact writeHeader_write_code _ _ _ hrw
  · intro session profileMap nickname hs hhas hprof hnick
    exact WhoAmI_body_of_nickname u rw r hrw session profileMap nickname hs hhas hprof hnick
  · intro hno
    exact WhoAmI_body_of_no_nickname u rw r hrw hno
  · intro u2 s1 s2 h1 h2 hhas hprof
    simp only [WhoAmI, h1, h2, hhas, hprof]
  · intro text hbody hne
    by_cases hex : ∃ session profileMap nickname,
        u.StoreGet r "auth-session" = .ok (some session) ∧
        mapHas session.Values "access_token" = true ∧
        mapIndex session.Values "profile" = .stringMap profileMap ∧
        mapIndex profileMap "nickname" = .str nickname
    · obtain ⟨session, profileMap, nickname, hs, hhas, hprof, hnick⟩ := hex
      rw [WhoAmI_body_of_nickname u rw r hrw session profileMap nickname hs hhas hprof hnick]
        at hbody
      have htext : nickname = text := by
        have h := List.append_cancel_left hbody
        simpa using h
      exact ⟨session, profileMap, hs, hprof, htext ▸ hnick⟩
    · rw [WhoAmI_body_of_no_nickname u rw r hrw hex] at hbody
      have htext : "" = text := by
        have h := List.append_cancel_left hbody
        simpa using h
      exact absurd htext.symm hne

/-- C11, at a session after the handshake, at a store whose lookup fails, and at two
sessions that differ in their token only. -/
theorem whoami_reply_witness :
    ResponseWriter.fresh.wroteHeader = false ∧
    (WhoAmI (storeWith loggedInValues) .fresh sessionRequest).Code = 200 ∧
    (WhoAmI (storeWith loggedInValues) .fresh sessionRequest).Body
      = ResponseWriter.fresh.Body ++ [.text "dancer"] ∧
    (WhoAmI failingStore .fresh sessionRequest).Body = ResponseWriter.fresh.Body ++ [.text ""] ∧
    WhoAmI (storeWith (("access_token", .str "another") :: loggedInValues.tail)) .fresh
      sessionRequest = WhoAmI (storeWith loggedInValues) .fresh sessionRequest :=
  ⟨rfl,
   (whoami_reply (storeWith loggedInValues) .fresh sessionRequest rfl).1,
   (whoami_reply (storeWith loggedInValues) .fresh sessionRequest rfl).2.1
      { Values := loggedInValues }
      [("name", .str "D. Dancer"), ("nickname", .str "dancer")] "dancer" rfl rfl rfl rfl,
   (whoami_reply failingStore .fresh sessionRequest rfl).2.2.1
      (fun ⟨_, _, _, h, _⟩ => by cases h),
   (whoami_reply (storeWith loggedInValues) .fresh sessionRequest rfl).2.2.2.1
      (storeWith (("access_token", .str "another") :: loggedInValues.tail))
      { Values := loggedInValues }
      { Values := ("access_token", .str "another") :: loggedInValues.tail } rfl rfl rfl rfl⟩

end BstWeb
